import Mathlib

/-!
# Verification of the RayyAI statement ingestion pipeline

Shallow embedding of the statement ingestion, classification and
reconciliation pipeline of the `rayyai-capstone` backend
(`routers/statements.py`, `routers/statement_processor.py`,
`routers/transactions.py`, `routers/utils.py`, `models.py`),
together with theorems settling the frozen claims C1-C10.

Modelling conventions:
* Python floats are modelled exactly as fractions (`PyFloat`: an integer
  numerator over a positive natural denominator, compared by
  cross-multiplication); the amounts appearing in the claims are all
  exactly representable decimals, so no binary rounding artefacts are in
  scope.
* Python `None` and an absent dictionary key are both modelled as
  `Option.none`; where the source distinguishes them (a direct `d[k]`
  index raising `KeyError`), the model raises on `none`, which is what
  the source does on both an absent key and on `None` wherever the claims
  exercise it (see the comments at the relevant definitions).
* `datetime.date` values are modelled as day numbers (`Int`, days since
  1970-01-01, Gregorian calendar).
* Database rows are modelled as Lean structures held in lists; a
  SQLAlchemy query without `order_by` is modelled as iterating the list
  in order.  Fields never read by the pipeline under verification
  (timestamps, display names, file URLs and hashes) are omitted.
* Exceptions are modelled with `Except`; an endpoint returns its final
  database state together with either a response or an error marker.
-/

namespace RayyAI

/-! ## Generic Python-semantics helpers -/

/-- Python `needle in hay` prefix test on character lists. -/
def charsStartWith : List Char → List Char → Bool
  | [], _ => true
  | _ :: _, [] => false
  | a :: as, b :: bs => a == b && charsStartWith as bs

/-- Python substring containment (`needle in hay`) on character lists. -/
def charsContain (needle : List Char) : List Char → Bool
  | [] => charsStartWith needle []
  | c :: cs => charsStartWith needle (c :: cs) || charsContain needle cs

/-- Python `needle in hay` on strings. -/
def strIn (needle hay : String) : Bool :=
  charsContain needle.data hay.data

/-- Whitespace test used by `str.strip()`. -/
def isSpaceChar (c : Char) : Bool :=
  c == ' ' || c == '\t' || c == '\n' || c == '\r' || c == '\x0b' || c == '\x0c'

/-- Drop leading whitespace from a character list. -/
def charsDropLeadingSpace : List Char → List Char
  | [] => []
  | c :: cs => if isSpaceChar c then charsDropLeadingSpace cs else c :: cs

/-- Python `str.strip()` (kernel-computable, character-list based). -/
def pyStrip (s : String) : String :=
  String.mk ((charsDropLeadingSpace (charsDropLeadingSpace s.data.reverse).reverse))

/-- Python `str.upper()` (ASCII fragment, which is all this code base uses). -/
def pyUpper (s : String) : String := String.mk (s.data.map Char.toUpper)

/-- Python `str.lower()` (ASCII fragment). -/
def pyLower (s : String) : String := String.mk (s.data.map Char.toLower)

/-- Python `s.startswith(p)`. -/
def pyStartsWith (s p : String) : Bool := charsStartWith p.data s.data

/-- Python `s.endswith(p)`. -/
def pyEndsWith (s p : String) : Bool := charsStartWith p.data.reverse s.data.reverse

/-- Python `s[:-n]` for `n ≥ 1` (drop the last `n` characters). -/
def pyDropRight (s : String) (n : Nat) : String :=
  String.mk (s.data.take (s.data.length - n))

/-- Python `s[n:]` (drop the first `n` characters). -/
def pyDropLeft (s : String) (n : Nat) : String := String.mk (s.data.drop n)

/-- Python `s[:n]` (take the first `n` characters). -/
def pyTake (s : String) (n : Nat) : String := String.mk (s.data.take n)

/-- Replace every occurrence of the (nonempty) pattern, scanning left to
right.  Structural recursion on a fuel counter so that the definition
reduces in the kernel; the fuel is initialised to the list length, which
the scan can never exhaust. -/
def charsReplaceFuel (pat rep : List Char) : Nat → List Char → List Char
  | 0, l => l
  | _ + 1, [] => []
  | fuel + 1, c :: cs =>
    if pat.isEmpty then c :: cs
    else if charsStartWith pat (c :: cs) then
      rep ++ charsReplaceFuel pat rep fuel (cs.drop (pat.length - 1))
    else
      c :: charsReplaceFuel pat rep fuel cs

/-- Python `s.replace(pat, rep)` for a nonempty pattern. -/
def pyReplace (s pat rep : String) : String :=
  String.mk (charsReplaceFuel pat.data rep.data s.data.length s.data)

/-- Split a character list on a separator character (Python `str.split(sep)`
for a single-character separator). -/
def charsSplitOn (sep : Char) : List Char → List (List Char)
  | [] => [[]]
  | c :: cs =>
    let r := charsSplitOn sep cs
    if c == sep then [] :: r
    else
      match r with
      | [] => [[c]]
      | h :: t => (c :: h) :: t

/-- Python truthiness of an optional string (`None` and `""` are falsy). -/
def truthyStr : Option String → Bool
  | none => false
  | some s => !(s == "")

/-! ## Exact model of Python float values

`Rat` arithmetic in Mathlib normalises through `Nat.gcd`, which is
defined by well-founded recursion and hence does not reduce inside the
kernel; to keep every definition evaluable by `decide` we carry exact
fractions without normalisation.  Two `PyFloat`s denote the same real
number iff they cross-multiply equally (`PyFloat.Eqv`). -/

structure PyFloat where
  num : Int
  den : Nat
  pos : 0 < den

namespace PyFloat

/-- Embed an integer. -/
def ofInt (n : Int) : PyFloat := ⟨n, 1, Nat.one_pos⟩

/-- The decimal `i / 10^k` (convenience for literals such as `dec 5 2 = 0.05`). -/
def dec (i : Int) (k : Nat) : PyFloat := ⟨i, 10 ^ k, Nat.pos_pow_of_pos k (by omega)⟩

def add (a b : PyFloat) : PyFloat :=
  ⟨a.num * b.den + b.num * a.den, a.den * b.den, Nat.mul_pos a.pos b.pos⟩

def neg (a : PyFloat) : PyFloat := ⟨-a.num, a.den, a.pos⟩

def sub (a b : PyFloat) : PyFloat := add a (neg b)

/-- Python `abs`. -/
def pyAbs (a : PyFloat) : PyFloat := ⟨|a.num|, a.den, a.pos⟩

/-- Multiply by an integer (used for sign application). -/
def mulInt (a : PyFloat) (k : Int) : PyFloat := ⟨a.num * k, a.den, a.pos⟩

/-- Multiply by `10^k`. -/
def mulPow10 (a : PyFloat) (k : Nat) : PyFloat := ⟨a.num * 10 ^ k, a.den, a.pos⟩

/-- Divide by `10^k`. -/
def divPow10 (a : PyFloat) (k : Nat) : PyFloat :=
  ⟨a.num, a.den * 10 ^ k, Nat.mul_pos a.pos (Nat.pos_pow_of_pos k (by omega))⟩

/-- Python `a <= b` (valid because denominators are positive). -/
def ble (a b : PyFloat) : Bool := a.num * b.den ≤ b.num * a.den

/-- Python `a < b`. -/
def blt (a b : PyFloat) : Bool := a.num * b.den < b.num * a.den

/-- Python `a == b`. -/
def beq (a b : PyFloat) : Bool := a.num * b.den == b.num * a.den

/-- Denotational equality (cross-multiplication). -/
def Eqv (a b : PyFloat) : Prop := a.num * (b.den : Int) = b.num * (a.den : Int)

instance : DecidableEq PyFloat := fun a b =>
  decidable_of_iff (a.num = b.num ∧ a.den = b.den) (by
    obtain ⟨an, ad, ap⟩ := a
    obtain ⟨bn, bd, bp⟩ := b
    simp)

instance (a b : PyFloat) : Decidable (Eqv a b) := by
  unfold Eqv; infer_instance

/-- Mathematical floor. -/
def floorInt (a : PyFloat) : Int := a.num.fdiv a.den

/-- Round to the nearest integer, ties to even — the rounding used by
Python's `round` (modelled on the exact decimal value). -/
def roundHalfEven (a : PyFloat) : Int :=
  let f := floorInt a
  let rem := a.num - f * a.den
  if 2 * rem < (a.den : Int) then f
  else if 2 * rem > (a.den : Int) then f + 1
  else if f % 2 == 0 then f else f + 1

/-- Python `round(x, 2)` (on the exact decimal value). -/
def round2 (a : PyFloat) : PyFloat := divPow10 (ofInt (roundHalfEven (mulPow10 a 2))) 2

/-- Sum of a list (SQL `SUM` over the listed rows). -/
def sumList (l : List PyFloat) : PyFloat := l.foldl add (ofInt 0)

end PyFloat

/-- Python truthiness of an optional number (`None` and `0` are falsy). -/
def truthyNum : Option PyFloat → Bool
  | none => false
  | some q => !(PyFloat.beq q (PyFloat.ofInt 0))

/-- Python lexicographic `<` on character lists (code-point order). -/
def charsLt : List Char → List Char → Bool
  | [], [] => false
  | [], _ :: _ => true
  | _ :: _, [] => false
  | a :: as, b :: bs => a < b || (a == b && charsLt as bs)

/-- Python `<` on strings. -/
def pyStrLt (a b : String) : Bool := charsLt a.data b.data

/-- Python `min` over a nonempty string list (first minimum wins). -/
def pyMinStr (x : String) (xs : List String) : String :=
  xs.foldl (fun acc y => if pyStrLt y acc then y else acc) x

/-- Python `max` over a nonempty string list (first maximum wins). -/
def pyMaxStr (x : String) (xs : List String) : String :=
  xs.foldl (fun acc y => if pyStrLt acc y then y else acc) x

/-! ## Python `float(str)` model

Models CPython's parsing of a finite decimal float literal: optional
sign, a digit string with an optional fractional part (at least one
digit overall), and an optional decimal exponent.  `inf`/`nan` spellings
and digit-group underscores are outside the fragment exercised by this
code base and are treated as parse failures. -/

/-- Value of a digit run as a natural number, `none` if a non-digit occurs
or the run is empty. -/
def digitsToNat? (cs : List Char) : Option Nat :=
  if cs.isEmpty then none
  else cs.foldl (fun acc c =>
    match acc with
    | none => none
    | some n => if c.isDigit then some (n * 10 + (c.toNat - '0'.toNat)) else none)
    (some 0)

/-- Split a character list at the first occurrence of `sep`. -/
def splitAtChar (sep : Char) : List Char → (List Char × Option (List Char))
  | [] => ([], none)
  | c :: cs =>
    if c == sep then ([], some cs)
    else
      let r := splitAtChar sep cs
      (c :: r.1, r.2)

/-- Parse an optional leading sign; returns the sign and the rest. -/
def parseSign : List Char → (Int × List Char)
  | '+' :: cs => (1, cs)
  | '-' :: cs => (-1, cs)
  | cs => (1, cs)

/-- Parse the mantissa `digits[.digits]` of a float literal as a pair
(numerator, number of fractional digits). -/
def parseMantissa? (cs : List Char) : Option (Nat × Nat) :=
  let (intPart, fracPart) := splitAtChar '.' cs
  match fracPart with
  | none => (digitsToNat? intPart).map (fun n => (n, 0))
  | some fp =>
    if intPart.isEmpty && fp.isEmpty then none
    else if intPart.isEmpty then (digitsToNat? fp).map (fun n => (n, fp.length))
    else if fp.isEmpty then (digitsToNat? intPart).map (fun n => (n, 0))
    else
      match digitsToNat? intPart, digitsToNat? fp with
      | some i, some f => some (i * 10 ^ fp.length + f, fp.length)
      | _, _ => none

/-- Scale a value by `10 ^ e` for a signed exponent `e`. -/
def scalePow10 (q : PyFloat) (e : Int) : PyFloat :=
  if 0 ≤ e then q.mulPow10 e.toNat else q.divPow10 (-e).toNat

/-- Model of Python `float(s)` restricted to finite decimal literals. -/
def pyFloat? (s : String) : Option PyFloat :=
  let cs := (pyStrip s).data
  let (sign, cs) := parseSign cs
  let (mant, expPart) :=
    match splitAtChar 'e' cs with
    | (m, some e) => (m, some e)
    | (_, none) => splitAtChar 'E' cs
  match parseMantissa? mant with
  | none => none
  | some (num, fracLen) =>
    let base : PyFloat := (PyFloat.dec (sign * (num : Int)) fracLen)
    match expPart with
    | none => some base
    | some ecs =>
      let (esign, edigits) := parseSign ecs
      match digitsToNat? edigits with
      | none => none
      | some e => some (scalePow10 base (esign * (e : Int)))

/-! ## AmountNormalizer (`statement_processor.parse_numeric_value`) -/

/-- A JSON-ish Python value as it reaches `parse_numeric_value`. -/
inductive PyVal where
  | none
  | num (q : PyFloat)
  | str (s : String)
  | other
  deriving DecidableEq

/-- The CR/DR suffix step of `parse_numeric_value` (`CR` keeps the sign,
`DR` forces it negative, both strip the suffix). -/
def crdrStep (cleaned : String) : Int × String :=
  let upper := pyUpper cleaned
  if pyEndsWith upper "CR" then (1, pyStrip (pyDropRight cleaned 2))
  else if pyEndsWith upper "DR" then (-1, pyStrip (pyDropRight cleaned 2))
  else (1, cleaned)

/-- The currency-marker / comma / space removal step of
`parse_numeric_value`. -/
def stripCurrencyStep (s : String) : String :=
  pyReplace (pyReplace (pyReplace (pyReplace s "RM" "") "MYR" "") "," "") " " ""

/-- The parenthesized-negative step of `parse_numeric_value`
(`(123.45)` becomes negative with the parentheses stripped). -/
def parenStep (sign : Int) (cleaned : String) : Int × String :=
  if pyStartsWith cleaned "(" && pyEndsWith cleaned ")" then
    (sign * -1, pyDropRight (pyDropLeft cleaned 1) 1)
  else (sign, cleaned)

/-- `statement_processor.parse_numeric_value` (lines 106-155): normalize
locale-specific amount strings (CR/DR suffixes, `RM`/`MYR` markers,
thousands separators, parenthesized negatives) to a signed number.
A value that is neither `None`, numeric nor a string returns `None`
(source line 155). -/
def parse_numeric_value (value : PyVal) : Option PyFloat :=
  match value with
  | .none => none
  | .num q => some q
  | .str v =>
    let cleaned0 := pyStrip v
    if cleaned0 == "" then none
    else
      let p1 := crdrStep cleaned0
      let p2 := parenStep p1.1 (stripCurrencyStep p1.2)
      if p2.2 == "" || p2.2 == "-" || p2.2 == "--" then none
      else
        match pyFloat? p2.2 with
        | some q => some (q.mulInt p2.1)
        | none => none
  | .other => none

/-- C10: the amount normalizer is total (it is a Lean function, hence
never raises); an already-numeric input is returned unchanged;
`normalize("1,234.50 CR") = 1234.50`, `normalize("500.00 DR") = -500.00`,
`normalize("(20.00)") = -20.00`; `""` returns null; any input whose
cleaned form is `""`/`"-"`/`"--"`, and any input whose cleaned form fails
to parse as a float, returns null. -/
theorem C10_amount_normalizer :
    (∀ q : PyFloat, parse_numeric_value (.num q) = some q) ∧
    (parse_numeric_value (.str "1,234.50 CR") = some (PyFloat.dec 123450 2) ∧
      PyFloat.Eqv (PyFloat.dec 123450 2) (PyFloat.divPow10 (PyFloat.ofInt 123450) 2)) ∧
    (parse_numeric_value (.str "500.00 DR") = some (PyFloat.dec (-50000) 2) ∧
      PyFloat.Eqv (PyFloat.dec (-50000) 2) (PyFloat.ofInt (-500))) ∧
    (parse_numeric_value (.str "(20.00)") = some (PyFloat.dec (-2000) 2) ∧
      PyFloat.Eqv (PyFloat.dec (-2000) 2) (PyFloat.ofInt (-20))) ∧
    parse_numeric_value (.str "") = none ∧
    (∀ v s1 c1 s2 c2, pyStrip v ≠ "" →
      crdrStep (pyStrip v) = (s1, c1) →
      parenStep s1 (stripCurrencyStep c1) = (s2, c2) →
      ((c2 = "" ∨ c2 = "-" ∨ c2 = "--") → parse_numeric_value (.str v) = none) ∧
      (pyFloat? c2 = none → parse_numeric_value (.str v) = none)) := by
  refine ⟨fun q => rfl, by decide, by decide, by decide, by decide, ?_⟩
  intro v s1 c1 s2 c2 hne h1 h2
  have hbeq : (pyStrip v == "") = false := by
    simpa using hne
  constructor
  · intro hc
    simp only [parse_numeric_value, hbeq, Bool.false_eq_true, if_false, h1, h2]
    rcases hc with h | h | h <;> subst h <;> simp
  · intro hf
    simp only [parse_numeric_value, hbeq, Bool.false_eq_true, if_false, h1, h2, hf]
    split <;> simp_all

/-- Witness for C10 at concrete inputs: `"RM -"` cleans to `"-"` and
`"abc"` fails the float parse; both return null. -/
theorem C10_amount_normalizer_witness :
    parse_numeric_value (.str "RM -") = none ∧
    parse_numeric_value (.str "abc") = none := by
  constructor
  · exact ((C10_amount_normalizer.2.2.2.2.2 "RM -" 1 "RM -" 1 "-" (by decide)
      (by decide) (by decide)).1 (by simp))
  · exact ((C10_amount_normalizer.2.2.2.2.2 "abc" 1 "abc" 1 "abc" (by decide)
      (by decide) (by decide)).2 (by decide))

/-! ## Extraction data model (`statement_processor.py`)

Transient JSON payloads produced per page by the external vision call and
merged by `process_statement_pdf`.  Python `None` and an absent key are
both modelled as `none`; a direct `d[k]` index on a missing key is
modelled as a raised exception. -/

/-- Exceptions a merge/import step can raise. -/
inductive PyExc where
  | keyError
  | attributeError
  | valueError
  deriving DecidableEq

structure StatementPeriod where
  start_date : Option String
  end_date : Option String
  deriving DecidableEq

structure Balances where
  opening_balance : Option PyFloat
  closing_balance : Option PyFloat
  deriving DecidableEq

structure AccountInfo where
  account_number : Option String
  account_name : Option String
  account_type : Option String
  card_brand : Option String
  deriving DecidableEq

/-- An extracted transaction as a JSON dictionary (`type` is rendered as
`txnType`; Lean reserves the former). -/
structure Txn where
  date : Option String
  description : Option String
  amount : Option PyFloat
  txnType : Option String
  category : Option String
  transfer_type : Option String
  reference : Option String
  payer : Option String
  seller : Option String
  location : Option String
  deriving DecidableEq

/-- A per-page extraction payload.  `user_info` and `credit_card_terms`
are opaque payloads to the merge (first-wins selection only), modelled as
strings. -/
structure PageData where
  error : Option String
  statement_period : Option StatementPeriod
  account_info : Option AccountInfo
  user_info : Option String
  credit_card_terms : Option String
  balances : Option Balances
  transactions : List Txn
  deriving DecidableEq

/-- The document-level extraction result built by `process_statement_pdf`
(step 5, lines 1007-1019).  `success` is always `True` there and is
implied by `Except.ok`; `processed_at` (a wall-clock timestamp) and the
response-only `credit_card_summary` convenience block are omitted.
`errors = []` models the `errors if errors else None` null. -/
structure ExtractionResult where
  total_pages : Nat
  total_transactions : Nat
  statement_period : Option StatementPeriod
  account_info : Option AccountInfo
  user_info : Option String
  opening_balance : Option PyFloat
  closing_balance : Option PyFloat
  transactions : List Txn
  errors : List String
  credit_card_terms : Option String
  deriving DecidableEq

/-! ## ExtractionMerger (`statement_processor.process_statement_pdf`) -/

/-- `statement_processor.EXPENSE_CATEGORIES` (lines 33-55), in dictionary
insertion order. -/
def EXPENSE_CATEGORIES : List (String × List String) := [
  ("Housing", ["rent", "rental", "housing", "accommodation", "apartment", "condo", "house",
    "lease", "sewa", "rumah", "sewa rumah", "bilik", "apartment", "kondo"]),
  ("Groceries", ["grocery", "supermarket", "market", "fresh", "vegetables", "fruits",
    "familymart", "family mart", "7-eleven", "tesco", "giant", "aeon", "pasar", "pasar malam",
    "pasar pagi", "kedai runcit", "mini market", "99 speedmart", "kk mart", "mydin", "sayur",
    "buah", "basah"]),
  ("Dining", ["restaurant", "cafe", "coffee", "starbucks", "mcdonald", "kfc", "dining",
    "food court", "pizza", "burger", "sushi", "food", "eat", "lunch", "dinner", "breakfast",
    "brunch", "warung", "kedai", "restoran", "mamak", "kopitiam", "gerai", "stall", "nasi",
    "mee", "roti", "teh", "kopi", "makan", "minum", "buka puasa", "sahur", "old town",
    "secret recipe", "pappa rich", "nandos", "domino", "pizza hut", "subway", "marrybrown",
    "ramly", "ayam", "ikan", "daging", "grab food", "grabfood", "foodpanda", "deliveroo",
    "food delivery"]),
  ("Transportation", ["fuel", "petrol", "gas", "taxi", "grab", "uber", "parking", "toll",
    "shell", "petronas", "bhp", "minyak", "bensin", "letak kereta", "tol", "lrt", "mrt",
    "ktm", "bas", "teksi", "kereta", "motor"]),
  ("Shopping", ["mall", "store", "shop", "clothing", "fashion", "apparel", "uniqlo", "h&m",
    "zara", "kedai", "butik", "pasaraya", "beli", "belian", "pembelian"]),
  ("Entertainment", ["cinema", "movie", "game", "entertainment", "theme park", "wayang",
    "pawagam", "gsc", "tgv", "mbo", "hiburan", "permainan"]),
  ("Healthcare", ["clinic", "hospital", "pharmacy", "medical", "doctor", "health", "guardian",
    "watsons", "klinik", "hospital", "farmasi", "doktor", "ubat", "kesihatan", "rawatan"]),
  ("Bills & Utilities", ["electric", "water", "internet", "phone", "bill", "utility", "telco",
    "bil", "elektrik", "air", "internet", "telefon", "tnb", "syabas", "tm", "unifi", "maxis",
    "celcom", "digi", "astro"]),
  ("Education", ["school", "university", "course", "book", "education", "tuition", "sekolah",
    "universiti", "kuliah", "buku", "pendidikan", "yuran", "tuisyen"]),
  ("Travel", ["hotel", "flight", "airbnb", "booking", "travel", "tourism", "hotel",
    "penerbangan", "kapal terbang", "perjalanan", "pelancongan", "cuti"]),
  ("Insurance", ["insurance", "takaful", "policy", "insurans", "takaful", "polis"]),
  ("Personal Care", ["salon", "spa", "beauty", "gym", "fitness", "salun", "kecantikan", "gim",
    "kecergasan", "grooming", "rambut", "facial"])]

/-- `statement_processor.guess_category` (lines 57-65). -/
def guess_category (description : String) : String :=
  let desc_lower := pyLower description
  match EXPENSE_CATEGORIES.find? (fun ck => ck.2.any (fun kw => strIn kw desc_lower)) with
  | some ck => ck.1
  | none => "Other"

/-- Python `" ".join(filter(None, xs))`. -/
def joinSpaceNonEmpty (xs : List String) : String :=
  String.intercalate " " (xs.filter (fun s => !(s == "")))

/-- `statement_processor.detect_card_brand` (lines 68-103). -/
def detect_card_brand (account_name account_type card_brand : Option String) : String :=
  let fromBrand : Option String :=
    if truthyStr card_brand then
      let bl := pyStrip (pyLower (card_brand.getD ""))
      if strIn "visa" bl then some "Visa"
      else if strIn "master" bl then some "Mastercard"
      else if strIn "amex" bl || strIn "american express" bl then some "American Express"
      else if strIn "jcb" bl then some "JCB"
      else if strIn "union" bl then some "UnionPay"
      else none
    else none
  match fromBrand with
  | some b => b
  | none =>
    let combined_text := pyLower (joinSpaceNonEmpty [account_name.getD "", account_type.getD ""])
    if strIn "visa" combined_text then "Visa"
    else if strIn "master" combined_text then "Mastercard"
    else if strIn "amex" combined_text || strIn "american express" combined_text then
      "American Express"
    else if strIn "jcb" combined_text then "JCB"
    else if strIn "union" combined_text then "UnionPay"
    else "Visa"

/-- Loop accumulator of step 2 of `process_statement_pdf` (lines 888-961). -/
structure MergeAcc where
  all_transactions : List Txn
  statement_period : Option StatementPeriod
  account_info : Option AccountInfo
  user_info : Option String
  opening_balance : Option PyFloat
  closing_balance : Option PyFloat
  credit_card_terms : Option String
  errors : List String
  deriving DecidableEq

def initMergeAcc : MergeAcc :=
  { all_transactions := [], statement_period := none, account_info := none, user_info := none,
    opening_balance := none, closing_balance := none, credit_card_terms := none, errors := [] }

/-- Error collection (lines 906-908). -/
def mergeErrorStep (acc : MergeAcc) (page : PageData) : MergeAcc :=
  match page.error with
  | some e => { acc with errors := acc.errors ++ [e] }
  | none => acc

/-- Statement-period extraction (lines 910-914): first page with a
non-falsy start or end date wins. -/
def mergePeriodStep (acc : MergeAcc) (page : PageData) : MergeAcc :=
  if acc.statement_period.isNone then
    match page.statement_period with
    | some period =>
      if truthyStr period.start_date || truthyStr period.end_date then
        { acc with statement_period := some period }
      else acc
    | none => acc
  else acc

/-- Account-info extraction (lines 916-929): first page wins, with
`card_brand` fallback detection. -/
def mergeAccountStep (acc : MergeAcc) (page : PageData) : MergeAcc :=
  if acc.account_info.isNone then
    match page.account_info with
    | some info =>
      let current_brand := info.card_brand
      let info :=
        if !truthyStr current_brand || pyLower (current_brand.getD "") == "unknown" then
          { info with card_brand := some (detect_card_brand info.account_name
              info.account_type
              (if truthyStr current_brand && !(pyLower (current_brand.getD "") == "unknown")
               then current_brand else none)) }
        else info
      { acc with account_info := some info }
    | none => acc
  else acc

/-- User-info extraction (lines 931-933): first page wins. -/
def mergeUserStep (acc : MergeAcc) (page : PageData) : MergeAcc :=
  if acc.user_info.isNone then
    match page.user_info with
    | some ui => { acc with user_info := some ui }
    | none => acc
  else acc

/-- Credit-card-terms extraction (lines 935-938): first page wins. -/
def mergeTermsStep (acc : MergeAcc) (page : PageData) : MergeAcc :=
  if acc.credit_card_terms.isNone then
    match page.credit_card_terms with
    | some ct => { acc with credit_card_terms := some ct }
    | none => acc
  else acc

/-- Balance extraction (lines 940-956): explicit `None`-checks; opening
balance first-wins, closing balance last-wins. -/
def mergeBalancesStep (acc : MergeAcc) (page : PageData) : MergeAcc :=
  match page.balances with
  | some b =>
    let acc :=
      if b.opening_balance.isSome && acc.opening_balance.isNone then
        { acc with opening_balance := b.opening_balance }
      else acc
    if b.closing_balance.isSome then { acc with closing_balance := b.closing_balance }
    else acc
  | none => acc

/-- Transaction collection (lines 958-961). -/
def mergeTxnsStep (acc : MergeAcc) (page : PageData) : MergeAcc :=
  { acc with all_transactions := acc.all_transactions ++ page.transactions }

/-- One iteration of the per-page merge loop (lines 897-961).  The
`"Page {i}: "` prefix added to collected error strings is elided (pure
formatting, never read back). -/
def mergePage (acc : MergeAcc) (page : PageData) : MergeAcc :=
  mergeTxnsStep (mergeBalancesStep (mergeTermsStep (mergeUserStep (mergeAccountStep
    (mergePeriodStep (mergeErrorStep acc page) page) page) page) page) page) page

/-- Step 3 of `process_statement_pdf` (lines 965-985): fallback
categorization for transactions the extractor left uncategorized.
Accessing `transaction['type']` / `transaction['description']` when the
field is missing (or calling `.lower()` on `None`) raises. -/
def categorizeTxn (txn : Txn) : Except PyExc Txn :=
  if truthyStr txn.category then .ok txn
  else
    match txn.txnType with
    | none => .error .keyError
    | some t =>
      match txn.description with
      | none => .error .keyError
      | some d =>
        if t == "debit" then .ok { txn with category := some (guess_category d) }
        else
          let desc := pyLower d
          let cat :=
            if strIn "salary" desc || strIn "payroll" desc then "Salary"
            else if strIn "transfer" desc || strIn "online transfer" desc then "Transfer"
            else if strIn "interest" desc || strIn "dividend" desc then "Investments"
            else "Other"
          .ok { txn with category := some cat }

/-- Step 4 of `process_statement_pdf` (lines 987-1004): fill missing
statement-period bounds from the min/max transaction dates.  When no page
supplied a statement period at all, `statement_period` is `None` and
`statement_period.get('start_date')` raises `AttributeError`. -/
def fillPeriodFallback (sp : Option StatementPeriod) (all_transactions : List Txn) :
    Except PyExc (Option StatementPeriod) :=
  if all_transactions.isEmpty then .ok sp
  else
    let transaction_dates :=
      all_transactions.filterMap (fun t => if truthyStr t.date then t.date else none)
    match transaction_dates with
    | [] => .ok sp
    | d :: ds =>
      let earliest_date := pyMinStr d ds
      let latest_date := pyMaxStr d ds
      match sp with
      | none => .error .attributeError
      | some period =>
        let period :=
          if !truthyStr period.start_date then { period with start_date := some earliest_date }
          else period
        let period :=
          if !truthyStr period.end_date then { period with end_date := some latest_date }
          else period
        .ok (some period)

/-- Error outcomes of `process_statement_pdf`: an empty PDF raises a 400
`HTTPException` (line 880), and any internal exception is re-raised as a
500 `HTTPException` (lines 1062-1067). -/
inductive PdfErr where
  | noPages
  | internal (e : PyExc)
  deriving DecidableEq

/-- `statement_processor.process_statement_pdf` (lines 862-1067), given
the per-page payloads the external extraction call produced.  PDF
rasterisation and the vision call itself are the external collaborators;
everything from the merge loop on is modelled. -/
def process_statement_pdf (pages : List PageData) : Except PdfErr ExtractionResult :=
  if pages.isEmpty then .error .noPages
  else
    let acc := pages.foldl mergePage initMergeAcc
    match acc.all_transactions.mapM categorizeTxn with
    | .error e => .error (.internal e)
    | .ok txns =>
      match fillPeriodFallback acc.statement_period txns with
      | .error e => .error (.internal e)
      | .ok sp =>
        .ok { total_pages := pages.length
              total_transactions := txns.length
              statement_period := sp
              account_info := acc.account_info
              user_info := acc.user_info
              opening_balance := acc.opening_balance
              closing_balance := acc.closing_balance
              transactions := txns
              errors := acc.errors
              credit_card_terms := acc.credit_card_terms }

lemma orElse_none {α : Type} (x : Option α) : (x.orElse fun _ => none) = x := by
  cases x <;> rfl

/-- The opening-balance value a single page contributes. -/
def pageOpening (p : PageData) : Option PyFloat := p.balances.bind Balances.opening_balance

/-- The closing-balance value a single page contributes. -/
def pageClosing (p : PageData) : Option PyFloat := p.balances.bind Balances.closing_balance

lemma mergeErrorStep_opening (acc : MergeAcc) (p : PageData) :
    (mergeErrorStep acc p).opening_balance = acc.opening_balance := by
  unfold mergeErrorStep; split <;> rfl

lemma mergePeriodStep_opening (acc : MergeAcc) (p : PageData) :
    (mergePeriodStep acc p).opening_balance = acc.opening_balance := by
  unfold mergePeriodStep; split
  · split
    · split <;> rfl
    · rfl
  · rfl

lemma mergeAccountStep_opening (acc : MergeAcc) (p : PageData) :
    (mergeAccountStep acc p).opening_balance = acc.opening_balance := by
  unfold mergeAccountStep; split
  · split <;> rfl
  · rfl

lemma mergeUserStep_opening (acc : MergeAcc) (p : PageData) :
    (mergeUserStep acc p).opening_balance = acc.opening_balance := by
  unfold mergeUserStep; split
  · split <;> rfl
  · rfl

lemma mergeTermsStep_opening (acc : MergeAcc) (p : PageData) :
    (mergeTermsStep acc p).opening_balance = acc.opening_balance := by
  unfold mergeTermsStep; split
  · split <;> rfl
  · rfl

lemma mergeErrorStep_closing (acc : MergeAcc) (p : PageData) :
    (mergeErrorStep acc p).closing_balance = acc.closing_balance := by
  unfold mergeErrorStep; split <;> rfl

lemma mergePeriodStep_closing (acc : MergeAcc) (p : PageData) :
    (mergePeriodStep acc p).closing_balance = acc.closing_balance := by
  unfold mergePeriodStep; split
  · split
    · split <;> rfl
    · rfl
  · rfl

lemma mergeAccountStep_closing (acc : MergeAcc) (p : PageData) :
    (mergeAccountStep acc p).closing_balance = acc.closing_balance := by
  unfold mergeAccountStep; split
  · split <;> rfl
  · rfl

lemma mergeUserStep_closing (acc : MergeAcc) (p : PageData) :
    (mergeUserStep acc p).closing_balance = acc.closing_balance := by
  unfold mergeUserStep; split
  · split <;> rfl
  · rfl

lemma mergeTermsStep_closing (acc : MergeAcc) (p : PageData) :
    (mergeTermsStep acc p).closing_balance = acc.closing_balance := by
  unfold mergeTermsStep; split
  · split <;> rfl
  · rfl

lemma mergeBalancesStep_opening (acc : MergeAcc) (p : PageData) :
    (mergeBalancesStep acc p).opening_balance =
      acc.opening_balance.orElse (fun _ => pageOpening p) := by
  unfold mergeBalancesStep pageOpening
  cases hb : p.balances with
  | none => cases acc.opening_balance <;> simp [Option.orElse]
  | some b =>
    cases hob : b.opening_balance <;> cases h : acc.opening_balance <;>
      simp [Option.orElse, Option.bind, hob, h] <;> split <;> simp_all

lemma mergeBalancesStep_closing (acc : MergeAcc) (p : PageData) :
    (mergeBalancesStep acc p).closing_balance =
      (pageClosing p).orElse (fun _ => acc.closing_balance) := by
  unfold mergeBalancesStep pageClosing
  cases hb : p.balances with
  | none => cases acc.closing_balance <;> simp [Option.orElse]
  | some b =>
    cases hcb : b.closing_balance with
    | none =>
      simp only [Option.orElse, Option.bind, hcb, Option.isSome_none, Bool.false_eq_true,
        if_false]
      split <;> rfl
    | some v =>
      simp only [Option.orElse, Option.bind, hcb, Option.isSome_some, if_true]

lemma mergePage_opening (acc : MergeAcc) (p : PageData) :
    (mergePage acc p).opening_balance = acc.opening_balance.orElse (fun _ => pageOpening p) := by
  unfold mergePage mergeTxnsStep
  rw [show (∀ a : MergeAcc, ({ a with all_transactions := a.all_transactions ++ p.transactions }
    : MergeAcc).opening_balance = a.opening_balance) from fun a => rfl]
  rw [mergeBalancesStep_opening, mergeTermsStep_opening, mergeUserStep_opening,
    mergeAccountStep_opening, mergePeriodStep_opening, mergeErrorStep_opening]

lemma mergePage_closing (acc : MergeAcc) (p : PageData) :
    (mergePage acc p).closing_balance = (pageClosing p).orElse (fun _ => acc.closing_balance) := by
  unfold mergePage mergeTxnsStep
  rw [show (∀ a : MergeAcc, ({ a with all_transactions := a.all_transactions ++ p.transactions }
    : MergeAcc).closing_balance = a.closing_balance) from fun a => rfl]
  rw [mergeBalancesStep_closing, mergeTermsStep_closing, mergeUserStep_closing,
    mergeAccountStep_closing, mergePeriodStep_closing, mergeErrorStep_closing]

lemma foldl_mergePage_opening (pages : List PageData) (acc : MergeAcc) :
    (pages.foldl mergePage acc).opening_balance =
      acc.opening_balance.orElse (fun _ => (pages.filterMap pageOpening).head?) := by
  induction pages generalizing acc with
  | nil => cases h : acc.opening_balance <;> simp [Option.orElse, h]
  | cons p ps ih =>
    simp only [List.foldl_cons, ih, mergePage_opening, List.filterMap_cons]
    cases hop : pageOpening p <;> cases h : acc.opening_balance <;>
      simp [Option.orElse, hop, h]

lemma foldl_mergePage_closing (pages : List PageData) (acc : MergeAcc) :
    (pages.foldl mergePage acc).closing_balance =
      ((pages.filterMap pageClosing).getLast?).orElse (fun _ => acc.closing_balance) := by
  induction pages generalizing acc with
  | nil => cases h : acc.closing_balance <;> simp [Option.orElse, h]
  | cons p ps ih =>
    simp only [List.foldl_cons, ih, mergePage_closing, List.filterMap_cons]
    cases hcl : pageClosing p
    · simp
    · rcases h : (ps.filterMap pageClosing) with _ | ⟨q, qs⟩
      · simp [Option.orElse, h]
      · simp only [Option.orElse, h, List.getLast?_cons_cons]
        cases hq : (q :: qs).getLast? with
        | none => simp [List.getLast?_eq_none_iff] at hq
        | some z => rfl

/-- First example page of the C6 spec example: `opening=None, closing=100`. -/
def c6page1 : PageData :=
  { error := none, statement_period := none, account_info := none, user_info := none,
    credit_card_terms := none,
    balances := some { opening_balance := none, closing_balance := some (PyFloat.ofInt 100) },
    transactions := [] }

/-- Second example page of the C6 spec example: `opening=0.0, closing=200`. -/
def c6page2 : PageData :=
  { error := none, statement_period := none, account_info := none, user_info := none,
    credit_card_terms := none,
    balances := some { opening_balance := some (PyFloat.ofInt 0),
                       closing_balance := some (PyFloat.ofInt 200) },
    transactions := [] }

/-- C6: for every page list that merges successfully, the merged
`opening_balance` is the first non-null page opening balance in page
order (an explicit `None`-check, so `0.0` is taken), and the merged
`closing_balance` is the last non-null page closing balance (later pages
override earlier ones); in particular for pages
`[{opening=None, closing=100}, {opening=0.0, closing=200}]` the merged
opening is `0.0` and the merged closing is `200`. -/
theorem C6_merge_balance_precedence :
    (∀ (pages : List PageData) (r : ExtractionResult), process_statement_pdf pages = .ok r →
      r.opening_balance = (pages.filterMap pageOpening).head? ∧
      r.closing_balance = (pages.filterMap pageClosing).getLast?) ∧
    (process_statement_pdf [c6page1, c6page2]).toOption.map
        (fun r => (r.opening_balance, r.closing_balance)) =
      some (some (PyFloat.ofInt 0), some (PyFloat.ofInt 200)) := by
  constructor
  · intro pages r h
    simp only [process_statement_pdf] at h
    split at h
    · exact absurd h (by simp)
    · rcases h1 : (pages.foldl mergePage initMergeAcc).all_transactions.mapM categorizeTxn with
        _ | txns
      · rw [h1] at h; exact absurd h (by simp)
      · rw [h1] at h
        dsimp only at h
        rcases h2 : fillPeriodFallback (pages.foldl mergePage initMergeAcc).statement_period
            txns with _ | sp
        · rw [h2] at h; exact absurd h (by simp)
        · rw [h2] at h
          simp only [Except.ok.injEq] at h
          subst h
          exact ⟨foldl_mergePage_opening pages initMergeAcc,
                 (foldl_mergePage_closing pages initMergeAcc).trans (orElse_none _)⟩
  · rfl

/-- The merged result of the C6 example pages. -/
def c6result : ExtractionResult :=
  { total_pages := 2, total_transactions := 0, statement_period := none,
    account_info := none, user_info := none,
    opening_balance := some (PyFloat.ofInt 0),
    closing_balance := some (PyFloat.ofInt 200), transactions := [],
    errors := [], credit_card_terms := none }

/-- Witness for C6 at the spec's two-page example. -/
theorem C6_merge_balance_precedence_witness :
    (process_statement_pdf [c6page1, c6page2]).toOption.map
        (fun r => (r.opening_balance, r.closing_balance)) =
      some (([c6page1, c6page2].filterMap pageOpening).head?,
            ([c6page1, c6page2].filterMap pageClosing).getLast?) := by
  have h := C6_merge_balance_precedence.1 [c6page1, c6page2] c6result rfl
  rw [show (process_statement_pdf [c6page1, c6page2]).toOption.map
      (fun r => (r.opening_balance, r.closing_balance)) =
      some (c6result.opening_balance, c6result.closing_balance) from rfl, h.1, h.2]

/-- The dated transaction of the C5 failing input. -/
def c5txn : Txn :=
  { date := some "2025-01-05", description := some "COFFEE",
    amount := some (PyFloat.ofInt (-5)), txnType := some "debit",
    category := some "Dining", transfer_type := none, reference := none,
    payer := none, seller := none, location := none }

/-- The single page of the C5 failing input: no statement period supplied,
one dated transaction present. -/
def c5page : PageData :=
  { error := none, statement_period := none, account_info := none, user_info := none,
    credit_card_terms := none, balances := none, transactions := [c5txn] }

/-- C5 (code bug): when no page supplies a `statement_period` at all and
some transaction carries a date, the merger does not fall back to the
min/max transaction dates — `statement_period.get('start_date')` is
evaluated on `None` and raises `AttributeError` (surfaced as a 500
error), so no result is produced at all. -/
theorem C5_period_fallback_crashes_without_period :
    process_statement_pdf [c5page] = .error (.internal .attributeError) := by
  rfl

/-! ## Dates

`datetime.date` values are modelled as day numbers (days since
1970-01-01 in the proleptic Gregorian calendar), so `timedelta(days=1)`
arithmetic is integer arithmetic. -/

def isLeapYear (y : Nat) : Bool := y % 4 == 0 && (y % 100 != 0 || y % 400 == 0)

def daysInMonth (y m : Nat) : Nat :=
  if m == 2 then (if isLeapYear y then 29 else 28)
  else if m == 4 || m == 6 || m == 9 || m == 11 then 30
  else 31

/-- Day number of a civil date (days since 1970-01-01). -/
def daysFromCivil (y m d : Nat) : Int :=
  let yAdj : Int := if m ≤ 2 then (y : Int) - 1 else (y : Int)
  let era : Int := (if 0 ≤ yAdj then yAdj else yAdj - 399) / 400
  let yoe : Int := yAdj - era * 400
  let mp : Nat := (m + 9) % 12
  let doy : Nat := (153 * mp + 2) / 5 + d - 1
  let doe : Int := yoe * 365 + yoe / 4 - yoe / 100 + (doy : Int)
  era * 146097 + doe - 719468

/-- Python `datetime.strptime(s, '%Y-%m-%d').date()`: `none` models the
raised `ValueError` on a malformed or out-of-range date. -/
def parseDate (s : String) : Option Int :=
  match charsSplitOn '-' s.data with
  | [ys, ms, ds] =>
    match digitsToNat? ys, digitsToNat? ms, digitsToNat? ds with
    | some y, some m, some d =>
      if ys.length ≤ 4 ∧ ms.length ≤ 2 ∧ ds.length ≤ 2 ∧ 1 ≤ m ∧ m ≤ 12 ∧ 1 ≤ d ∧
          d ≤ daysInMonth y m then
        some (daysFromCivil y m d)
      else none
    | _, _, _ => none
  | _ => none

/-! ## Persisted rows (`models.py`)

Lists model tables; iteration order models the (unordered) query result
order, which in practice is insertion order.  Timestamp columns
(`created`, `last_processed`, `date_uploaded`), `display_name`, file
URL/hash columns and the unreferenced `department`/`project`/`card_id`
columns are omitted: the modelled pipeline never reads them. -/

structure IncomeRow where
  user_id : Nat
  account_id : Option Nat
  statement_id : Option Nat
  amount : PyFloat
  description : Option String
  category : String
  date_received : Int
  payer : String
  reference_no : Option String
  is_deleted : Bool
  deriving DecidableEq

structure ExpenseRow where
  user_id : Nat
  account_id : Option Nat
  statement_id : Option Nat
  amount : PyFloat
  description : Option String
  category : String
  expense_type : Option String
  date_spent : Int
  seller : String
  location : Option String
  reference_no : Option String
  tax_amount : PyFloat
  tax_deductible : Bool
  is_reimbursable : Bool
  is_deleted : Bool
  deriving DecidableEq

structure TransferRow where
  user_id : Nat
  account_id : Option Nat
  statement_id : Option Nat
  amount : PyFloat
  description : String
  category : String
  transfer_type : String
  date_transferred : Int
  recipient_account_name : Option String
  recipient_account_no : Option String
  reference_no : Option String
  is_deleted : Bool
  deriving DecidableEq

structure AccountRec where
  account_id : Nat
  user_id : Nat
  account_no : Option String
  account_name : String
  account_type : String
  account_subtype : Option String
  account_balance : Option PyFloat
  card_id : Option Nat
  is_deleted : Bool
  deriving DecidableEq

structure SnapshotRec where
  account_id : Nat
  snapshot_date : Int
  closing_balance : PyFloat
  is_deleted : Bool
  deriving DecidableEq

/-- `UserCreditCard`, restricted to the fields the modelled pipeline
reads or writes.  The `next_payment_date`/`next_payment_amount` updates
(source lines 2017-2059) write only those two fields, which no claim
references; they are omitted together with the fields. -/
structure CardRec where
  card_id : Nat
  user_id : Nat
  current_balance : PyFloat
  is_deleted : Bool
  deriving DecidableEq

structure StatementRec where
  statement_id : Nat
  user_id : Nat
  statement_type : String
  period_start : Option Int
  period_end : Option Int
  is_deleted : Bool
  extracted_data : Option ExtractionResult
  processing_status : String
  processing_error : Option String
  deriving DecidableEq

/-- The persistent state `process_statement` / `preview_statement` act
on: the one statement addressed by the request plus the owner-scoped
tables.  `next_account_id` models the autoincrement id `db.flush()`
assigns to a newly created account. -/
structure ProcState where
  statement : StatementRec
  incomes : List IncomeRow
  expenses : List ExpenseRow
  transfers : List TransferRow
  accounts : List AccountRec
  snapshots : List SnapshotRec
  cards : List CardRec
  next_account_id : Nat
  deriving DecidableEq

/-! ## TransactionClassifier (`transactions.py`, `utils.py`) -/

/-- `transactions.NEEDS_CATEGORY_KEYWORDS` (lines 16-45).  The source
holds these in Python sets; only `any`-style membership scans are
performed on them, so iteration order is irrelevant. -/
def NEEDS_CATEGORY_KEYWORDS : List String :=
  ["rent", "mortgage", "housing", "utilities", "electricity", "water", "internet",
   "groceries", "grocery", "supermarket", "transportation", "fuel", "gas",
   "public transport", "healthcare", "medical", "insurance", "education", "tuition",
   "loan payment", "debt", "childcare", "necessities", "bill", "bills", "phone",
   "mobile", "salary advance"]

/-- `transactions.WANTS_CATEGORY_KEYWORDS` (lines 47-80). -/
def WANTS_CATEGORY_KEYWORDS : List String :=
  ["entertainment", "shopping", "shop", "mall", "travel", "vacation", "holiday",
   "luxury", "gifts", "hobbies", "dining out", "dining", "fancy dining", "fine dining",
   "coffee", "cafe", "bistro", "restaurant", "takeout", "subscription", "gym",
   "fitness", "electronics", "clothing", "apparel", "beauty", "spa", "makeup",
   "gaming", "dine", "food court", "foodcourt"]

/-- `transactions.TRANSFER_KEYWORDS` (lines 82-110). -/
def TRANSFER_KEYWORDS : List String :=
  ["internal transfer", "self transfer", "fund transfer", "instant transfer",
   "duitnow transfer", "duit now transfer", "ibg transfer", "own account", "own acct",
   "tabung haji", "asb", "sspni", "ssp1m", "saving", "savings", "auto-save", "autosave",
   "auto save", "standing instruction", "top up", "top-up", "topup", "cash deposit",
   "deposit to", "stash", "goal transfer", "rainy day"]

/-- `transactions.TRANSFER_PAIR_HINTS` (lines 112-115). -/
def TRANSFER_PAIR_HINTS : List (String × List String) :=
  [("transfer", ["saving", "savings", "self", "own", "internal", "tabung", "asb",
     "stash", "goal", "duitnow", "duit now", "investment", "fund"]),
   ("deposit", ["saving", "savings", "own", "stash", "goal", "tabung", "asb"])]

/-- `transactions._looks_like_transfer` (lines 118-130). -/
def looks_like_transfer (text : String) : Bool :=
  let lowered := pyLower text
  if lowered == "" then false
  else if TRANSFER_KEYWORDS.any (fun kw => strIn kw lowered) then true
  else TRANSFER_PAIR_HINTS.any (fun ac =>
    strIn ac.1 lowered && ac.2.any (fun companion => strIn companion lowered))

/-- `transactions.infer_expense_type` (lines 133-191). -/
def infer_expense_type (category description : Option String) (amount : Option PyFloat) :
    Option String :=
  let text := pyLower (pyStrip (joinSpaceNonEmpty [category.getD "", description.getD ""]))
  if text == "" then some "needs"
  else if looks_like_transfer text then none
  else
    let shopping_keywords := ["shopping", "shop", "mall", "purchase", "buy", "retail",
      "store", "fashion", "clothing", "apparel", "online shopping", "e-commerce",
      "marketplace"]
    let category_lower := pyLower (category.getD "")
    if category_lower == "shopping" then some "wants"
    else if shopping_keywords.any (fun kw => strIn kw text) then some "wants"
    else
      let dining_keywords := ["restaurant", "cafe", "bistro", "dining", "dine",
        "food court", "foodcourt", "takeout", "dining out"]
      let is_dining := dining_keywords.any (fun kw => strIn kw text)
      if is_dining &&
          (amount.isNone || PyFloat.blt (PyFloat.ofInt 50) (amount.getD (PyFloat.ofInt 0))) then
        some "wants"
      else if is_dining && ["restaurant", "cafe", "bistro", "dining out", "takeout"].any
          (fun kw => strIn kw text) then
        some "wants"
      else if WANTS_CATEGORY_KEYWORDS.any (fun kw => strIn kw text) then some "wants"
      else if !is_dining && NEEDS_CATEGORY_KEYWORDS.any (fun kw => strIn kw text) then
        some "needs"
      else some "needs"

/-- `utils.map_account_type` (lines 222-293). -/
def map_account_type (extracted_type : String) : String × Option String :=
  if extracted_type == "" then ("savings", none)
  else
    let el := pyLower extracted_type
    if ["savings", "simpanan", "tabungan", "saving"].any (fun k => strIn k el) then
      if ["islamic", "-i ", "shariah", "syariah"].any (fun k => strIn k el) then
        ("savings", some "Islamic Savings Account")
      else if ["junior", "kid", "child"].any (fun k => strIn k el) then
        ("savings", some "Junior Savings Account")
      else if ["premier", "premium", "privilege"].any (fun k => strIn k el) then
        ("savings", some "Premier Savings Account")
      else ("savings", some extracted_type)
    else if ["current", "checking", "semasa", "chequing"].any (fun k => strIn k el) then
      if ["islamic", "-i ", "shariah", "syariah"].any (fun k => strIn k el) then
        ("current", some "Islamic Current Account")
      else ("current", some extracted_type)
    else if ["credit card", "visa", "mastercard", "amex", "american express",
        "credit-card"].any (fun k => strIn k el) then
      if strIn "world elite" el then ("credit", some "World Elite Credit Card")
      else if strIn "signature" el then ("credit", some "Signature Credit Card")
      else if strIn "platinum" el then ("credit", some "Platinum Credit Card")
      else if strIn "gold" el then ("credit", some "Gold Credit Card")
      else if strIn "classic" el then ("credit", some "Classic Credit Card")
      else ("credit", some extracted_type)
    else if ["touch n go", "tng", "grabpay", "grab pay", "boost", "shopeepay",
        "shopee pay", "ewallet", "e-wallet", "wallet", "mayabank", "gcash"].any
        (fun k => strIn k el) then
      ("ewallet", some extracted_type)
    else if ["investment", "brokerage", "trading", "asb", "asn", "unit trust",
        "amanah saham", "mutual fund"].any (fun k => strIn k el) then
      ("investment", some extracted_type)
    else if ["cash", "tunai", "physical cash"].any (fun k => strIn k el) then
      ("cash", some "Cash")
    else ("savings", some extracted_type)

/-! ## DuplicateResolver (`statements.remove_duplicate_transaction`) -/

/-- Apply `f` to the first element satisfying `p` (a SQLAlchemy
`.first()` hit followed by an in-place update); returns whether a hit
occurred. -/
def updateFirst {α : Type} (p : α → Bool) (f : α → α) : List α → List α × Bool
  | [] => ([], false)
  | x :: xs =>
    if p x then (f x :: xs, true)
    else
      let r := updateFirst p f xs
      (x :: r.1, r.2)

/-- Normalization used for fuzzy description comparison: first 50
characters, lower-cased, stripped (source lines 1650, 1682, 1724). -/
def normDesc (description : String) : String :=
  pyStrip (pyLower (pyTake description 50))

/-- The fuzzy match of the second duplicate strategy (lines 1680-1692):
substring overlap of the normalized descriptions (both non-empty), or a
matching target account (`account_id` truthy — account ids are
positive). -/
def fuzzyDupMatch (desc_normalized existing_desc : String) (account_id row_account : Option Nat) :
    Bool :=
  (!(desc_normalized == "") && !(existing_desc == "") &&
    (strIn desc_normalized existing_desc || strIn existing_desc desc_normalized)) ||
  (match account_id with
   | some a => row_account == some a
   | none => false)

/-- The row filter of the second duplicate strategy, income table
(lines 1672-1692): same owner, identical amount, date within the ±1-day
window, active, and fuzzy description/account match. -/
def incomeDupScan (uid : Nat) (amount : PyFloat) (date_start date_end : Int)
    (desc_normalized : String) (account_id : Option Nat) (r : IncomeRow) : Bool :=
  r.user_id == uid && PyFloat.beq r.amount amount &&
  decide (date_start ≤ r.date_received) && decide (r.date_received ≤ date_end) &&
  !r.is_deleted &&
  fuzzyDupMatch desc_normalized (normDesc (r.description.getD "")) account_id r.account_id

/-- The row filter of the second duplicate strategy, expense table
(lines 1714-1734). -/
def expenseDupScan (uid : Nat) (amount : PyFloat) (date_start date_end : Int)
    (desc_normalized : String) (account_id : Option Nat) (r : ExpenseRow) : Bool :=
  r.user_id == uid && PyFloat.beq r.amount amount &&
  decide (date_start ≤ r.date_spent) && decide (r.date_spent ≤ date_end) &&
  !r.is_deleted &&
  fuzzyDupMatch desc_normalized (normDesc (r.description.getD "")) account_id r.account_id

/-- `remove_duplicate_transaction` (lines 1640-1742), income branch.
Returns the updated table and whether a duplicate was soft-deleted. -/
def remove_duplicate_income (incomes : List IncomeRow) (uid : Nat) (amount : PyFloat)
    (date : Int) (description : String) (account_id : Option Nat) (reference_no : String) :
    List IncomeRow × Bool :=
  let desc_normalized := if description == "" then "" else normDesc description
  let date_start := date - 1
  let date_end := date + 1
  -- First check: exact reference-number match (when the candidate has one)
  let refHit :=
    if !(reference_no == "") then
      updateFirst
        (fun r => r.user_id == uid && r.reference_no == some reference_no && !r.is_deleted)
        (fun r => { r with is_deleted := true }) incomes
    else (incomes, false)
  if refHit.2 then (refHit.1, true)
  else
    -- Second check: identical amount, date within ±1 day, fuzzy description/account
    updateFirst (incomeDupScan uid amount date_start date_end desc_normalized account_id)
      (fun r => { r with is_deleted := true }) incomes

/-- `remove_duplicate_transaction` (lines 1640-1742), expense branch. -/
def remove_duplicate_expense (expenses : List ExpenseRow) (uid : Nat) (amount : PyFloat)
    (date : Int) (description : String) (account_id : Option Nat) (reference_no : String) :
    List ExpenseRow × Bool :=
  let desc_normalized := if description == "" then "" else normDesc description
  let date_start := date - 1
  let date_end := date + 1
  let refHit :=
    if !(reference_no == "") then
      updateFirst
        (fun r => r.user_id == uid && r.reference_no == some reference_no && !r.is_deleted)
        (fun r => { r with is_deleted := true }) expenses
    else (expenses, false)
  if refHit.2 then (refHit.1, true)
  else
    updateFirst (expenseDupScan uid amount date_start date_end desc_normalized account_id)
      (fun r => { r with is_deleted := true }) expenses

/-! ## Transfer neutralization (`statements.should_neutralize_transfer`) -/

/-- The intra-person keyword table (lines 1768-1773). -/
def intra_person_keywords : List String :=
  ["savings", "saving", "own account", "self transfer", "internal transfer",
   "tabung", "asb", "sspni", "ssp1m", "stash", "goal transfer", "auto-save",
   "autosave", "auto save", "standing instruction", "top up", "top-up", "topup",
   "cash deposit", "deposit to", "rainy day", "investment account", "duitnow to self"]

/-- `statements.should_neutralize_transfer` (lines 1745-1797). -/
def should_neutralize_transfer (txn : Txn) (user_accounts : List AccountRec) : Bool :=
  let description := pyLower (txn.description.getD "")
  if txn.transfer_type == some "intra_person" then true
  else if txn.transfer_type == some "inter_person" then false
  else if intra_person_keywords.any (fun keyword => strIn keyword description) then true
  else user_accounts.any (fun account =>
    (let account_name := pyLower account.account_name
     !(account_name == "") && strIn account_name description) ||
    (let account_no := pyLower (account.account_no.getD "")
     !(account_no == "") && strIn account_no description))

/-! ## LedgerImporter (`statements.process_statement`, transaction loop) -/

/-- Running state of the per-transaction import loop (lines 1631-1637
and the loop body 1816-1936): the three row tables plus the counters. -/
structure ImportAcc where
  incomes : List IncomeRow
  expenses : List ExpenseRow
  transfers : List TransferRow
  created_incomes : Nat
  created_expenses : Nat
  created_transfers : Nat
  skipped : Nat
  duplicates_removed : Nat
  neutralized_transfers : Nat
  deriving DecidableEq

/-- The Transfer row the neutralization branch creates (lines
1840-1871), including the `transfer_type` default and the
`Other → Transfer` category override. -/
def transferRowOf (uid stmt_id : Nat) (target : Option Nat) (txn : Txn) (d : Int) :
    TransferRow :=
  let transfer_type :=
    if !truthyStr txn.transfer_type then "intra_person" else txn.transfer_type.getD ""
  let category := txn.category.getD "Transfer"
  let category :=
    if transfer_type == "intra_person" && category == "Other" then "Transfer" else category
  { user_id := uid, account_id := target, statement_id := some stmt_id,
    amount := (txn.amount.getD (PyFloat.ofInt 0)).pyAbs,
    description := pyTake (txn.description.getD "") 255, category := category,
    transfer_type := transfer_type, date_transferred := d,
    recipient_account_name := none, recipient_account_no := none,
    reference_no := some (txn.reference.getD ""), is_deleted := false }

/-- The Income row created for a credit transaction (lines 1881-1895). -/
def incomeRowOf (uid stmt_id : Nat) (target : Option Nat) (txn : Txn) (d : Int) : IncomeRow :=
  { user_id := uid, account_id := target, statement_id := some stmt_id,
    amount := (txn.amount.getD (PyFloat.ofInt 0)).pyAbs,
    description := some (pyTake (txn.description.getD "") 255),
    category := txn.category.getD "Other", date_received := d,
    payer := txn.payer.getD "", reference_no := some (txn.reference.getD ""),
    is_deleted := false }

/-- The Expense row created for a debit transaction (lines 1904-1935),
with the needs/wants inference applied. -/
def expenseRowOf (uid stmt_id : Nat) (target : Option Nat) (txn : Txn) (d : Int) : ExpenseRow :=
  let amount := (txn.amount.getD (PyFloat.ofInt 0)).pyAbs
  let description := pyTake (txn.description.getD "") 255
  let inferred := infer_expense_type (some (txn.category.getD "Other"))
    (some description) (some amount.pyAbs)
  { user_id := uid, account_id := target, statement_id := some stmt_id,
    amount := amount, description := some description,
    category := txn.category.getD "Other",
    expense_type := some (inferred.getD "needs"), date_spent := d,
    seller := txn.seller.getD "", location := some (txn.location.getD ""),
    reference_no := some (txn.reference.getD ""),
    tax_amount := PyFloat.ofInt 0, tax_deductible := false,
    is_reimbursable := false, is_deleted := false }

/-- One iteration of the import loop (lines 1816-1936).  `txn['type']`
on a transaction without a `type` field raises (`Except.error`), which
the endpoint's generic handler turns into a `failed` statement. -/
def importTxn (uid : Nat) (stmt_id : Nat) (target_account : Option Nat)
    (user_accounts : List AccountRec) (acc : ImportAcc) (txn : Txn) :
    Except PyExc ImportAcc :=
  -- Validate transaction (line 1818): falsy date/amount/description ⇒ skipped
  if !truthyStr txn.date || !truthyNum txn.amount || !truthyStr txn.description then
    .ok { acc with skipped := acc.skipped + 1 }
  else
    -- Parse transaction date (lines 1822-1827): failure ⇒ skipped
    match parseDate (txn.date.getD "") with
    | none => .ok { acc with skipped := acc.skipped + 1 }
    | some txn_date =>
      let txnAmount := txn.amount.getD (PyFloat.ofInt 0)
      let amount := txnAmount.pyAbs
      let description := pyTake (txn.description.getD "") 255
      let account_id := target_account
      let reference_no := txn.reference.getD ""
      -- Transfer neutralization check (lines 1834-1872)
      let is_intra_person := txn.transfer_type == some "intra_person"
      if is_intra_person || should_neutralize_transfer txn user_accounts then
        .ok { acc with
          transfers := acc.transfers ++ [transferRowOf uid stmt_id account_id txn txn_date],
          created_transfers := acc.created_transfers + 1,
          neutralized_transfers := acc.neutralized_transfers + 1 }
      else
        match txn.txnType with
        | none => .error .keyError
        | some ttype =>
          if ttype == "credit" && PyFloat.blt (PyFloat.ofInt 0) txnAmount then
            -- Remove a duplicate, then create the Income row (lines 1875-1896)
            let dup := remove_duplicate_income acc.incomes uid amount txn_date description
              account_id reference_no
            .ok { acc with
              incomes := dup.1 ++ [incomeRowOf uid stmt_id account_id txn txn_date],
              created_incomes := acc.created_incomes + 1,
              duplicates_removed := acc.duplicates_removed + (if dup.2 then 1 else 0) }
          else if ttype == "debit" && PyFloat.blt txnAmount (PyFloat.ofInt 0) then
            -- Remove a duplicate, then create the Expense row (lines 1898-1936)
            let dup := remove_duplicate_expense acc.expenses uid amount txn_date description
              account_id reference_no
            .ok { acc with
              expenses := dup.1 ++ [expenseRowOf uid stmt_id account_id txn txn_date],
              created_expenses := acc.created_expenses + 1,
              duplicates_removed := acc.duplicates_removed + (if dup.2 then 1 else 0) }
          else
            -- Type/sign mismatch: the loop body simply falls through — the
            -- transaction is dropped without touching any counter
            .ok acc

/-! ## BalanceReconciler (`statements.process_statement`, lines 1944-2000) -/

structure ReconInfo where
  extracted_opening_balance : PyFloat
  extracted_closing_balance : PyFloat
  calculated_closing_balance : PyFloat
  total_income : PyFloat
  total_expenses : PyFloat
  difference : PyFloat
  matchesFlag : Bool
  deriving DecidableEq

/-- `SUM(amount)` over the non-deleted Income rows attributed to the
statement (`or 0.0` on the empty sum). -/
def totalIncomeFor (incomes : List IncomeRow) (stmt_id : Nat) : PyFloat :=
  PyFloat.sumList ((incomes.filter
    (fun r => r.statement_id == some stmt_id && !r.is_deleted)).map IncomeRow.amount)

/-- `SUM(amount)` over the non-deleted Expense rows attributed to the
statement. -/
def totalExpensesFor (expenses : List ExpenseRow) (stmt_id : Nat) : PyFloat :=
  PyFloat.sumList ((expenses.filter
    (fun r => r.statement_id == some stmt_id && !r.is_deleted)).map ExpenseRow.amount)

/-- The reconciliation block (lines 1944-2000): produced only when both
extracted bounds are present; totals come from the persisted rows, not
the extraction list; `matches` uses the unrounded difference with a 0.01
tolerance; display fields are rounded to two decimals. -/
def reconcileBalances (opening closing : Option PyFloat) (incomes : List IncomeRow)
    (expenses : List ExpenseRow) (stmt_id : Nat) : Option ReconInfo :=
  match opening, closing with
  | some opening_balance, some closing_balance =>
    let total_income := totalIncomeFor incomes stmt_id
    let total_expenses := totalExpensesFor expenses stmt_id
    let calculated_balance := (opening_balance.add total_income).sub total_expenses
    let difference := closing_balance.sub calculated_balance
    let matchesFlag := PyFloat.ble difference.pyAbs (PyFloat.dec 1 2)
    some { extracted_opening_balance := opening_balance,
           extracted_closing_balance := closing_balance,
           calculated_closing_balance := calculated_balance.round2,
           total_income := total_income.round2,
           total_expenses := total_expenses.round2,
           difference := difference.round2,
           matchesFlag := matchesFlag }
  | _, _ => none

/-! ## StatementProcessingStateMachine (`statements.process_statement`) -/

/-- Error responses of `process_statement`. -/
inductive ProcErr where
  | notFound                      -- 404: statement lookup failed
  | badStatementType              -- 400: unsupported statement type
  | conflictExtracting            -- 409: requested while status is `extracting`
  | conflictAlreadyProcessed      -- 409: already-imported guard (line 1607)
  | extractionFailed (e : PdfErr) -- HTTPException raised by `process_statement_pdf`
  | internalError (e : PyExc)     -- generic exception: statement marked `failed`
  deriving DecidableEq

structure ImportSummary where
  total_pages : Nat
  total_transactions_extracted : Nat
  incomes_created : Nat
  expenses_created : Nat
  transfers_created : Nat
  duplicates_removed : Nat
  neutralized_transfers : Nat
  skipped : Nat
  deriving DecidableEq

/-- The success response of `process_statement` (lines 2090-2122),
restricted to the data-bearing fields (the echoing `account` block,
`credit_card_terms`/`credit_card_summary` passthrough and message
strings are response decoration no claim reads). -/
structure ProcResponse where
  processing_status : String
  summary : ImportSummary
  statement_period : Option StatementPeriod
  opening_balance : Option PyFloat
  closing_balance : Option PyFloat
  reconciliation : Option ReconInfo
  deriving DecidableEq

/-- Cache check / fresh extraction (lines 1416-1472).  A cached payload
(always a non-empty dict) short-circuits; otherwise the status is set to
`extracting` and the external pipeline runs.  When
`process_statement_pdf` raises, the `HTTPException` is re-raised
unwrapped (line 2124), leaving the status at `extracting`; the
`not result['success']` branch (lines 1455-1465) is unreachable because
`process_statement_pdf` only ever returns `success=True` or raises. -/
def acquireExtraction (pages : List PageData) (stmt : StatementRec) :
    StatementRec × Except PdfErr ExtractionResult :=
  match stmt.extracted_data with
  | some cached => (stmt, .ok cached)
  | none =>
    let stmt := { stmt with processing_status := "extracting" }
    match process_statement_pdf pages with
    | .error e => (stmt, .error e)
    | .ok result =>
      ({ stmt with extracted_data := some result, processing_status := "extracted",
                   processing_error := none }, .ok result)

/-- The `end_date` half of the statement-period update (lines
1491-1498). -/
def updatePeriodEnd (stmt : StatementRec) (period : StatementPeriod) :
    Except PyExc StatementRec :=
  if truthyStr period.end_date then
    match parseDate (period.end_date.getD "") with
    | none => .error .valueError
    | some d => .ok { stmt with period_end := some d }
  else .ok stmt

/-- Statement-period update (lines 1479-1502): parse and store each
supplied bound; `strptime` failure raises `ValueError`. -/
def updatePeriods (stmt : StatementRec) (result : ExtractionResult) :
    Except PyExc StatementRec :=
  match result.statement_period with
  | none => .ok stmt
  | some period =>
    if truthyStr period.start_date then
      match parseDate (period.start_date.getD "") with
      | none => .error .valueError
      | some d => updatePeriodEnd { stmt with period_start := some d } period
    else updatePeriodEnd stmt period

/-- Account auto-resolution (lines 1504-1545): find the owner's account
by extracted account number, else create one (the new id comes from the
autoincrement counter).  Returns the updated table, counter and the
target account id. -/
def resolveAccount (uid : Nat) (accounts : List AccountRec) (next_id : Nat)
    (account_info : Option AccountInfo) : List AccountRec × Nat × Option Nat :=
  match account_info with
  | none => (accounts, next_id, none)
  | some info =>
    let existing :=
      if truthyStr info.account_number then
        (accounts.find? (fun a => a.user_id == uid &&
          a.account_no == some (info.account_number.getD "") && !a.is_deleted)).map
          AccountRec.account_id
      else none
    match existing with
    | some aid => (accounts, next_id, some aid)
    | none =>
      let extracted_type := info.account_type.getD ""
      let mapped := map_account_type extracted_type
      let account_name :=
        if truthyStr info.account_name then info.account_name.getD ""
        else extracted_type ++ " Account"
      (accounts ++ [{
        account_id := next_id, user_id := uid,
        account_no := some (info.account_number.getD ""),
        account_name := account_name, account_type := mapped.1,
        account_subtype := mapped.2, account_balance := none, card_id := none,
        is_deleted := false }], next_id + 1, some next_id)

/-- Balance update and snapshot upsert (lines 1547-1581): when an owning
account exists and the extracted closing balance is non-null, the
account's balance is set to that closing balance (as extracted, no
absolute value), and a snapshot keyed by the statement's period-end date
is updated in place or created. -/
def updateBalanceAndSnapshot (accounts : List AccountRec) (snapshots : List SnapshotRec)
    (target : Option Nat) (closing : Option PyFloat) (period_end : Option Int) :
    List AccountRec × List SnapshotRec :=
  match target, closing with
  | some aid, some closing_balance =>
    let accounts := (updateFirst (fun a => a.account_id == aid)
      (fun a => { a with account_balance := some closing_balance }) accounts).1
    match period_end with
    | some pend =>
      let upd := updateFirst
        (fun s => s.account_id == aid && s.snapshot_date == pend && !s.is_deleted)
        (fun s => { s with closing_balance := closing_balance }) snapshots
      if upd.2 then (accounts, upd.1)
      else (accounts, snapshots ++ [{
        account_id := aid, snapshot_date := pend, closing_balance := closing_balance,
        is_deleted := false }])
    | none => (accounts, snapshots)
  | _, _ => (accounts, snapshots)

/-- Outcomes of the post-extraction portion of `process_statement`:
a success response, an `HTTPException` (re-raised unchanged, line 2124),
or a generic exception (the handler at lines 2126-2139 then marks the
statement `failed`). -/
inductive ImportOutcome where
  | ok (resp : ProcResponse)
  | http (e : ProcErr)
  | exc (e : PyExc)

/-- Everything `process_statement` does after an extraction result is in
hand (lines 1479-2122).  The credit-card `next_payment` parsing (lines
2017-2059) writes only fields outside the model and is omitted; the
response's decorative fields are likewise omitted (see `ProcResponse`). -/
def processImport (uid : Nat) (force_reimport : Bool) (s : ProcState)
    (result : ExtractionResult) : ProcState × ImportOutcome :=
  match updatePeriods s.statement result with
  | .error e => (s, .exc e)
  | .ok stmt =>
  let s : ProcState := { s with statement := stmt }
  -- Auto-create account from statement if not exists
  let resolved := resolveAccount uid s.accounts s.next_account_id result.account_info
  let target_account := resolved.2.2
  let s : ProcState := { s with accounts := resolved.1, next_account_id := resolved.2.1 }
  -- Update account balance and create balance snapshot
  let balSnap := updateBalanceAndSnapshot s.accounts s.snapshots target_account
    result.closing_balance s.statement.period_end
  let s : ProcState := { s with accounts := balSnap.1, snapshots := balSnap.2 }
  -- Count existing transactions linked to this statement (lines 1585-1601)
  let sid := s.statement.statement_id
  let existing_incomes := (s.incomes.filter
    (fun r => r.statement_id == some sid && !r.is_deleted)).length
  let existing_expenses := (s.expenses.filter
    (fun r => r.statement_id == some sid && !r.is_deleted)).length
  let existing_transaction_count := existing_incomes + existing_expenses
  -- `using_cache` is recomputed here (line 1605), after a fresh extraction
  -- has already been cached — so it is true on every reachable path
  let using_cache := s.statement.extracted_data.isSome
  if decide (0 < existing_transaction_count) && !force_reimport && !using_cache then
    (s, .http .conflictAlreadyProcessed)
  else
  -- Force re-import: soft-delete the Income and Expense rows attributed to
  -- this statement (lines 1616-1628) — Transfer rows are not touched
  let s : ProcState :=
    if force_reimport && decide (0 < existing_transaction_count) then
      { s with
        incomes := s.incomes.map (fun r =>
          if r.statement_id == some sid && !r.is_deleted then { r with is_deleted := true }
          else r),
        expenses := s.expenses.map (fun r =>
          if r.statement_id == some sid && !r.is_deleted then { r with is_deleted := true }
          else r) }
    else s
  -- The owner's accounts, for transfer checking (line 1800: note no
  -- soft-delete filter in the source query)
  let user_accounts := s.accounts.filter (fun a => a.user_id == uid)
  -- Only create transactions per lines 1804-1812
  let should_create := !result.transactions.isEmpty &&
    (existing_transaction_count == 0 || force_reimport)
  let loopStart : ImportAcc :=
    { incomes := s.incomes, expenses := s.expenses, transfers := s.transfers,
      created_incomes := 0, created_expenses := 0, created_transfers := 0,
      skipped := 0, duplicates_removed := 0, neutralized_transfers := 0 }
  match (if should_create then
      result.transactions.foldlM (importTxn uid sid target_account user_accounts) loopStart
    else .ok loopStart) with
  | .error e => (s, .exc e)
  | .ok acc =>
  let s : ProcState :=
    { s with incomes := acc.incomes, expenses := acc.expenses, transfers := acc.transfers }
  -- Update processing status to imported (lines 1940-1942)
  let stmtImported :=
    { s.statement with processing_status := "imported", processing_error := none }
  let s : ProcState := { s with statement := stmtImported }
  -- Balance reconciliation (lines 1944-2000): advisory only
  let reconciliation_info := reconcileBalances result.opening_balance result.closing_balance
    s.incomes s.expenses sid
  -- Credit-card balance update (lines 2002-2072): when the target account
  -- is linked to a card and a closing balance exists, the card's current
  -- balance becomes the absolute value of the closing balance
  let s : ProcState :=
    match target_account with
    | some aid =>
      match (s.accounts.find? (fun a => a.account_id == aid)).bind AccountRec.card_id with
      | some cid =>
        match result.closing_balance with
        | some cb =>
          { s with cards := (updateFirst (fun c => c.card_id == cid && !c.is_deleted)
              (fun c => { c with current_balance := cb.pyAbs }) s.cards).1 }
        | none => s
      | none => s  -- `update_credit_card_balance` returns early without a card link
    | none => s
  (s, .ok {
    processing_status := s.statement.processing_status,
    summary := {
      total_pages := result.total_pages,
      total_transactions_extracted := result.total_transactions,
      incomes_created := acc.created_incomes,
      expenses_created := acc.created_expenses,
      transfers_created := acc.created_transfers,
      duplicates_removed := acc.duplicates_removed,
      neutralized_transfers := acc.neutralized_transfers,
      skipped := acc.skipped },
    statement_period := result.statement_period,
    opening_balance := result.opening_balance,
    closing_balance := result.closing_balance,
    reconciliation := reconciliation_info })

/-- The generic exception handler at lines 2126-2139: mark the
statement `failed` and record the error text (modelled as just
"exception"). -/
def markStatementFailed (s : ProcState) : ProcState :=
  let stmtFailed :=
    { s.statement with processing_status := "failed", processing_error := some "exception" }
  { s with statement := stmtFailed }

/-- `statements.process_statement` (lines 1366-2139).  `pages` is the
page-extraction outcome the external vision pipeline would produce if
invoked (ignored on the cache path).  On a generic exception the handler
(lines 2126-2139) marks the statement `failed`; which of the in-flight
mutations survive depends on the session's commit boundaries, which the
model does not refine further (no claim reads that path's state). -/
def process_statement (uid : Nat) (force_reimport : Bool) (pages : List PageData)
    (s : ProcState) : ProcState × Except ProcErr ProcResponse :=
  let stmt := s.statement
  -- 404: owner-scoped, non-deleted lookup (lines 1390-1400)
  if !(stmt.user_id == uid) || stmt.is_deleted then (s, .error .notFound)
  -- 400: only bank/credit_card/ewallet statements (lines 1403-1407)
  else if !(["bank", "credit_card", "ewallet"].contains (pyLower stmt.statement_type)) then
    (s, .error .badStatementType)
  -- 409: prevent concurrent processing (lines 1409-1414)
  else if stmt.processing_status == "extracting" then (s, .error .conflictExtracting)
  else
    match acquireExtraction pages stmt with
    | (stmt, .error e) => ({ s with statement := stmt }, .error (.extractionFailed e))
    | (stmt, .ok result) =>
      match processImport uid force_reimport { s with statement := stmt } result with
      | (s, .ok resp) => (s, .ok resp)
      | (s, .http e) => (s, .error e)
      | (s, .exc e) => (markStatementFailed s, .error (.internalError e))

/-! ## Preview endpoint (`statements.preview_statement`, lines 2141-2349) -/

inductive PreviewErr where
  | notFound
  | badStatementType
  | extractionFailed (e : PdfErr)
  | internalError (e : PyExc)
  deriving DecidableEq

/-- The preview response, restricted to the data-bearing fields. -/
structure PreviewResponse where
  cached : Bool
  statement_period : Option StatementPeriod
  opening_balance : Option PyFloat
  closing_balance : Option PyFloat
  transactions : List Txn
  deriving DecidableEq

/-- The extraction path of `preview_statement` (lines 2214-2335): set
status `extracting`, run the pipeline, cache the result, store period
dates.  The display-name generation (lines 2283-2312) writes only
`display_name`, which is outside the model. -/
def previewExtract (pages : List PageData) (s : ProcState) :
    ProcState × Except PreviewErr PreviewResponse :=
  let stmt := { s.statement with processing_status := "extracting" }
  match process_statement_pdf pages with
  | .error e => ({ s with statement := stmt }, .error (.extractionFailed e))
  | .ok result =>
    let stmt :=
      { stmt with extracted_data := some result, processing_status := "extracted",
                  processing_error := none }
    match updatePeriods stmt result with
    | .error e =>
      let stmtFailed :=
        { stmt with processing_status := "failed", processing_error := some "exception" }
      ({ s with statement := stmtFailed }, .error (.internalError e))
    | .ok stmt =>
      ({ s with statement := stmt },
       .ok { cached := false, statement_period := result.statement_period,
             opening_balance := result.opening_balance,
             closing_balance := result.closing_balance,
             transactions := result.transactions })

/-- `statements.preview_statement` (lines 2141-2349).  Note: unlike
`process_statement`, there is no `processing_status == 'extracting'`
guard anywhere in this endpoint. -/
def preview_statement (uid : Nat) (force_refresh : Bool) (pages : List PageData)
    (s : ProcState) : ProcState × Except PreviewErr PreviewResponse :=
  let stmt := s.statement
  if !(stmt.user_id == uid) || stmt.is_deleted then (s, .error .notFound)
  else if !(["bank", "credit_card", "ewallet"].contains (pyLower stmt.statement_type)) then
    (s, .error .badStatementType)
  else
    match stmt.extracted_data with
    | some cached =>
      if !force_refresh then
        (s, .ok { cached := true, statement_period := cached.statement_period,
                  opening_balance := cached.opening_balance,
                  closing_balance := cached.closing_balance,
                  transactions := cached.transactions })
      else previewExtract pages s
    | none => previewExtract pages s

/-! ## Claim C1: the ConflictAlreadyProcessed guard -/

lemma updatePeriodEnd_extracted (stmt : StatementRec) (period : StatementPeriod)
    (stmt' : StatementRec) (h : updatePeriodEnd stmt period = .ok stmt') :
    stmt'.extracted_data = stmt.extracted_data := by
  unfold updatePeriodEnd at h
  repeat' split at h
  all_goals first
    | (cases h; rfl)
    | exact absurd h (by simp)

lemma updatePeriods_extracted (stmt : StatementRec) (result : ExtractionResult)
    (stmt' : StatementRec) (h : updatePeriods stmt result = .ok stmt') :
    stmt'.extracted_data = stmt.extracted_data := by
  unfold updatePeriods at h
  repeat' split at h
  all_goals first
    | (cases h; rfl)
    | exact absurd h (by simp)
    | exact Eq.trans (updatePeriodEnd_extracted _ _ _ h) rfl

lemma acquireExtraction_ok_cache (pages : List PageData) (stmt stmt' : StatementRec)
    (result : ExtractionResult) (h : acquireExtraction pages stmt = (stmt', .ok result)) :
    stmt'.extracted_data = some result := by
  unfold acquireExtraction at h
  split at h
  · rename_i cached hc
    obtain ⟨h1, h2⟩ := Prod.mk.injEq .. ▸ h
    cases h2
    rw [← h1, hc]
  · split at h
    · exact absurd ((Prod.mk.injEq .. ▸ h).2) (by simp)
    · obtain ⟨h1, h2⟩ := Prod.mk.injEq .. ▸ h
      cases h2
      rw [← h1]

lemma processImport_no_conflict (uid : Nat) (force_reimport : Bool) (s : ProcState)
    (result : ExtractionResult) (h : s.statement.extracted_data.isSome = true) :
    (processImport uid force_reimport s result).2 ≠
      ImportOutcome.http ProcErr.conflictAlreadyProcessed := by
  unfold processImport
  rcases hup : updatePeriods s.statement result with e | stmt
  · simp
  · have hext : stmt.extracted_data.isSome = true := by
      rw [updatePeriods_extracted s.statement result stmt hup]; exact h
    simp only [hext, Bool.not_true, Bool.and_false, Bool.false_eq_true, if_false]
    split
    · simp
    · simp

/-- The extraction result of the C1 failing input (a one-page document
with no period, no balances and no transactions). -/
def c1page : PageData :=
  { error := none, statement_period := none, account_info := none, user_info := none,
    credit_card_terms := none, balances := none, transactions := [] }

/-- An active Expense row attributed to statement 1: the
already-imported evidence of the C1 failing input, and the existing row
of the C9 duplicate example. -/
def grabFoodExpense : ExpenseRow :=
  { user_id := 1, account_id := none, statement_id := some 1,
    amount := PyFloat.ofInt 50, description := some "Grab Food", category := "Dining",
    expense_type := some "wants", date_spent := daysFromCivil 2025 1 10, seller := "",
    location := none, reference_no := none, tax_amount := PyFloat.ofInt 0,
    tax_deductible := false, is_reimbursable := false, is_deleted := false }

/-- Builder for the one-statement fixture states. -/
def mkStatement (cache : Option ExtractionResult) (status : String) : StatementRec :=
  { statement_id := 1, user_id := 1, statement_type := "bank", period_start := none,
    period_end := none, is_deleted := false, extracted_data := cache,
    processing_status := status, processing_error := none }

/-- C1 failing input: statement 1 has an active attributed Expense row,
no cached extraction, `force_reimport = false`, and the request is a
fresh extraction (no cache hit). -/
def c1state : ProcState :=
  { statement := mkStatement none "pending", incomes := [], expenses := [grabFoodExpense],
    transfers := [], accounts := [], snapshots := [], cards := [], next_account_id := 1 }

/-- C1 (code bug): the already-processed conflict is never surfaced.  At
the failing input — rows already attributed, no force flag, not a
cache-hit revisit — the importer succeeds and mutates the statement
(status becomes `imported`, the fresh extraction is cached) instead of
returning the documented 409 conflict; moreover `using_cache` is
computed only after a fresh extraction has been cached (line 1605), so
no input whatsoever can reach the `ConflictAlreadyProcessed` branch. -/
theorem C1_conflict_guard_dead :
    ((process_statement 1 false [c1page] c1state).2.toOption.isSome = true ∧
     (process_statement 1 false [c1page] c1state).1.statement.processing_status = "imported" ∧
     (process_statement 1 false [c1page] c1state).1.statement.extracted_data.isSome = true) ∧
    (∀ (uid : Nat) (force_reimport : Bool) (pages : List PageData) (s : ProcState),
      (process_statement uid force_reimport pages s).2 ≠
        .error ProcErr.conflictAlreadyProcessed) := by
  refine ⟨⟨by decide, by decide, by decide⟩, ?_⟩
  intro uid force_reimport pages s
  unfold process_statement
  dsimp only
  split
  · simp
  · split
    · simp
    · split
      · simp
      · rcases hacq : acquireExtraction pages s.statement with ⟨stmt', res⟩
        rcases res with e | result
        · simp
        · have hext : stmt'.extracted_data.isSome = true := by
            rw [acquireExtraction_ok_cache pages s.statement stmt' result hacq]; rfl
          rcases hproc : processImport uid force_reimport
              { s with statement := stmt' } result with ⟨s2, out⟩
          have hnc := processImport_no_conflict uid force_reimport
            { s with statement := stmt' } result hext
          rw [hproc] at hnc
          cases out with
          | ok resp => dsimp only; rw [hproc]; simp
          | http e =>
            dsimp only
            rw [hproc]
            simp only [ne_eq, Except.error.injEq]
            intro he
            exact hnc (by rw [he])
          | exc e => dsimp only; rw [hproc]; simp

/-! ## Generic facts about the `.first()`-update scan -/

lemma updateFirst_length {α : Type} (p : α → Bool) (f : α → α) (l : List α) :
    (updateFirst p f l).1.length = l.length := by
  induction l with
  | nil => rfl
  | cons x xs ih =>
    unfold updateFirst
    split
    · rfl
    · simpa using ih

/-- `updateFirst` either finds nothing (and the list and flag say so) or
updates exactly the first element satisfying `p`. -/
lemma updateFirst_spec {α : Type} (p : α → Bool) (f : α → α) (l : List α) :
    ((updateFirst p f l).2 = false ∧ (updateFirst p f l).1 = l ∧ ∀ x ∈ l, p x = false) ∨
    (∃ l1 r l2, l = l1 ++ r :: l2 ∧ (∀ x ∈ l1, p x = false) ∧ p r = true ∧
      (updateFirst p f l).1 = l1 ++ f r :: l2 ∧ (updateFirst p f l).2 = true) := by
  induction l with
  | nil => left; exact ⟨rfl, rfl, by simp⟩
  | cons x xs ih =>
    by_cases hx : p x = true
    · right
      exact ⟨[], x, xs, by simp, by simp, hx, by simp [updateFirst, hx], by simp [updateFirst, hx]⟩
    · have hx' : p x = false := by simpa using hx
      rcases ih with ⟨h1, h2, h3⟩ | ⟨l1, r, l2, he, hl1, hr, hres, hflag⟩
      · left
        refine ⟨?_, ?_, ?_⟩
        · simp [updateFirst, hx', h1]
        · simp [updateFirst, hx', h2]
        · intro y hy
          rcases List.mem_cons.mp hy with h | h
          · exact h ▸ hx'
          · exact h3 y h
      · right
        refine ⟨x :: l1, r, l2, by simp [he], ?_, hr, ?_, ?_⟩
        · intro y hy
          rcases List.mem_cons.mp hy with h | h
          · exact h ▸ hx'
          · exact hl1 y h
        · simp [updateFirst, hx', hres]
        · simp [updateFirst, hx', hflag]

lemma remove_duplicate_income_length (incomes : List IncomeRow) (uid : Nat)
    (amount : PyFloat) (date : Int) (description : String) (account_id : Option Nat)
    (reference_no : String) :
    (remove_duplicate_income incomes uid amount date description account_id
      reference_no).1.length = incomes.length := by
  unfold remove_duplicate_income
  dsimp only
  repeat' split
  all_goals simp [updateFirst_length]

lemma remove_duplicate_expense_length (expenses : List ExpenseRow) (uid : Nat)
    (amount : PyFloat) (date : Int) (description : String) (account_id : Option Nat)
    (reference_no : String) :
    (remove_duplicate_expense expenses uid amount date description account_id
      reference_no).1.length = expenses.length := by
  unfold remove_duplicate_expense
  dsimp only
  repeat' split
  all_goals simp [updateFirst_length]

/-! ## Branch equations of the import-loop body -/

lemma importTxn_credit (uid stmt_id : Nat) (target : Option Nat)
    (ua : List AccountRec) (acc : ImportAcc) (txn : Txn) (d : Int)
    (h1 : truthyStr txn.date = true) (h2 : truthyNum txn.amount = true)
    (h3 : truthyStr txn.description = true)
    (h4 : parseDate (txn.date.getD "") = some d)
    (h5 : (txn.transfer_type == some "intra_person") = false)
    (h6 : should_neutralize_transfer txn ua = false)
    (h7 : txn.txnType = some "credit")
    (h8 : PyFloat.blt (PyFloat.ofInt 0) (txn.amount.getD (PyFloat.ofInt 0)) = true) :
    importTxn uid stmt_id target ua acc txn = .ok { acc with
      incomes := (remove_duplicate_income acc.incomes uid
          ((txn.amount.getD (PyFloat.ofInt 0)).pyAbs) d
          (pyTake (txn.description.getD "") 255) target (txn.reference.getD "")).1
        ++ [incomeRowOf uid stmt_id target txn d],
      created_incomes := acc.created_incomes + 1,
      duplicates_removed := acc.duplicates_removed +
        (if (remove_duplicate_income acc.incomes uid
            ((txn.amount.getD (PyFloat.ofInt 0)).pyAbs) d
            (pyTake (txn.description.getD "") 255) target (txn.reference.getD "")).2
         then 1 else 0) } := by
  unfold importTxn
  simp [h1, h2, h3, h4, h5, h6, h7, h8]

lemma importTxn_debit (uid stmt_id : Nat) (target : Option Nat)
    (ua : List AccountRec) (acc : ImportAcc) (txn : Txn) (d : Int)
    (h1 : truthyStr txn.date = true) (h2 : truthyNum txn.amount = true)
    (h3 : truthyStr txn.description = true)
    (h4 : parseDate (txn.date.getD "") = some d)
    (h5 : (txn.transfer_type == some "intra_person") = false)
    (h6 : should_neutralize_transfer txn ua = false)
    (h7 : txn.txnType = some "debit")
    (h8 : PyFloat.blt (txn.amount.getD (PyFloat.ofInt 0)) (PyFloat.ofInt 0) = true) :
    importTxn uid stmt_id target ua acc txn = .ok { acc with
      expenses := (remove_duplicate_expense acc.expenses uid
          ((txn.amount.getD (PyFloat.ofInt 0)).pyAbs) d
          (pyTake (txn.description.getD "") 255) target (txn.reference.getD "")).1
        ++ [expenseRowOf uid stmt_id target txn d],
      created_expenses := acc.created_expenses + 1,
      duplicates_removed := acc.duplicates_removed +
        (if (remove_duplicate_expense acc.expenses uid
            ((txn.amount.getD (PyFloat.ofInt 0)).pyAbs) d
            (pyTake (txn.description.getD "") 255) target (txn.reference.getD "")).2
         then 1 else 0) } := by
  unfold importTxn
  simp [h1, h2, h3, h4, h5, h6, h7, h8]

lemma importTxn_mismatch (uid stmt_id : Nat) (target : Option Nat)
    (ua : List AccountRec) (acc : ImportAcc) (txn : Txn) (d : Int) (ttype : String)
    (h1 : truthyStr txn.date = true) (h2 : truthyNum txn.amount = true)
    (h3 : truthyStr txn.description = true)
    (h4 : parseDate (txn.date.getD "") = some d)
    (h5 : (txn.transfer_type == some "intra_person") = false)
    (h6 : should_neutralize_transfer txn ua = false)
    (h7 : txn.txnType = some ttype)
    (h8 : (ttype == "credit" &&
      PyFloat.blt (PyFloat.ofInt 0) (txn.amount.getD (PyFloat.ofInt 0))) = false)
    (h9 : (ttype == "debit" &&
      PyFloat.blt (txn.amount.getD (PyFloat.ofInt 0)) (PyFloat.ofInt 0)) = false) :
    importTxn uid stmt_id target ua acc txn = .ok acc := by
  unfold importTxn
  simp [h1, h2, h3, h4, h5, h6, h7, h8, h9]

lemma importTxn_neutralized (uid stmt_id : Nat) (target : Option Nat)
    (ua : List AccountRec) (acc : ImportAcc) (txn : Txn) (d : Int)
    (h1 : truthyStr txn.date = true) (h2 : truthyNum txn.amount = true)
    (h3 : truthyStr txn.description = true)
    (h4 : parseDate (txn.date.getD "") = some d)
    (h5 : (txn.transfer_type == some "intra_person" ||
      should_neutralize_transfer txn ua) = true) :
    importTxn uid stmt_id target ua acc txn = .ok { acc with
      transfers := acc.transfers ++ [transferRowOf uid stmt_id target txn d],
      created_transfers := acc.created_transfers + 1,
      neutralized_transfers := acc.neutralized_transfers + 1 } := by
  unfold importTxn
  simp [h1, h2, h3, h4, h5]

/-! ## Claim C4: the `extracting` concurrency guard -/

/-- Fixture: a statement currently in `extracting`, with no cached
payload. -/
def c4state : ProcState :=
  { statement := mkStatement none "extracting", incomes := [], expenses := [],
    transfers := [], accounts := [], snapshots := [], cards := [], next_account_id := 1 }

/-- C4 counterexample: a preview request on a statement whose status is
`extracting` is NOT rejected — with no cache it re-enters extraction,
succeeds, and mutates the statement (status becomes `extracted`, the
payload is cached). -/
theorem C4_preview_during_extracting_not_rejected :
    (preview_statement 1 false [c1page] c4state).2.toOption.isSome = true ∧
    (preview_statement 1 false [c1page] c4state).1.statement.processing_status = "extracted" ∧
    (preview_statement 1 false [c1page] c4state).1.statement.extracted_data.isSome = true := by
  refine ⟨by decide, by decide, by decide⟩

/-- C4 as amended: an import (`process`) request on a statement whose
status is `extracting` is rejected with the 409 conflict before any
mutation — the state is returned exactly as it was; preview requests
perform no such check (see the counterexample). -/
theorem C4_process_conflict_while_extracting (uid : Nat) (force_reimport : Bool)
    (pages : List PageData) (s : ProcState)
    (huser : s.statement.user_id = uid) (hdel : s.statement.is_deleted = false)
    (htype : (["bank", "credit_card", "ewallet"].contains
      (pyLower s.statement.statement_type)) = true)
    (hstatus : s.statement.processing_status = "extracting") :
    process_statement uid force_reimport pages s = (s, .error .conflictExtracting) := by
  unfold process_statement
  dsimp only
  rw [huser, hdel, htype, hstatus]
  simp

/-- Witness for C4 at a concrete `extracting` statement. -/
theorem C4_process_conflict_while_extracting_witness :
    process_statement 1 false [] c4state = (c4state, .error .conflictExtracting) :=
  C4_process_conflict_while_extracting 1 false [] c4state rfl rfl (by decide) rfl

/-! ## Claim C3: account balance taken as extracted, not absolute -/

/-- Fixture: the owner's existing account, linked to credit card 9. -/
def c3account : AccountRec :=
  { account_id := 5, user_id := 1, account_no := some "12345", account_name := "Maybank",
    account_type := "savings", account_subtype := none,
    account_balance := some (PyFloat.ofInt 7), card_id := some 9, is_deleted := false }

def c3card : CardRec :=
  { card_id := 9, user_id := 1, current_balance := PyFloat.ofInt 0, is_deleted := false }

def c3accountInfo : AccountInfo :=
  { account_number := some "12345", account_name := some "Maybank",
    account_type := some "savings", card_brand := none }

/-- Cached extraction whose closing balance is the parameter. -/
def c3result (cb : PyFloat) : ExtractionResult :=
  { total_pages := 1, total_transactions := 0, statement_period := none,
    account_info := some c3accountInfo,
    user_info := none, opening_balance := none, closing_balance := some cb,
    transactions := [], errors := [], credit_card_terms := none }

def c3state (cb : PyFloat) : ProcState :=
  { statement := mkStatement (some (c3result cb)) "extracted", incomes := [], expenses := [],
    transfers := [], accounts := [c3account], snapshots := [], cards := [c3card],
    next_account_id := 6 }

/-- C3 counterexample: for the extracted closing balance `-100`, the
stored account balance is `-100` itself, not its positive magnitude
(which differs from it). -/
theorem C3_negative_closing_stored_as_is :
    (process_statement 1 false [] (c3state (PyFloat.ofInt (-100)))).1.accounts.map
        AccountRec.account_balance = [some (PyFloat.ofInt (-100))] ∧
    ¬ PyFloat.Eqv (PyFloat.ofInt (-100)) ((PyFloat.ofInt (-100)).pyAbs) := by
  refine ⟨by decide, by decide⟩

/-- C3 as amended: whenever the owning account exists and the extracted
closing balance is present, the account's `account_balance` is set to
the closing balance exactly as extracted (sign preserved); only the
linked credit card's `current_balance` receives the absolute value. -/
theorem C3_account_balance_from_closing (cb : PyFloat) :
    (process_statement 1 false [] (c3state cb)).1.accounts.map AccountRec.account_balance
      = [some cb] ∧
    (process_statement 1 false [] (c3state cb)).1.cards.map CardRec.current_balance
      = [cb.pyAbs] ∧
    (process_statement 1 false [] (c3state cb)).2.toOption.isSome = true := by
  refine ⟨rfl, rfl, rfl⟩

/-! ## Claim C7: balance reconciliation -/

def c7income : IncomeRow :=
  { user_id := 1, account_id := none, statement_id := some 1, amount := PyFloat.ofInt 500,
    description := some "Salary", category := "Salary",
    date_received := daysFromCivil 2025 1 15, payer := "", reference_no := none,
    is_deleted := false }

def c7expense : ExpenseRow :=
  { user_id := 1, account_id := none, statement_id := some 1, amount := PyFloat.ofInt 300,
    description := some "Rent", category := "Housing", expense_type := some "needs",
    date_spent := daysFromCivil 2025 1 16, seller := "", location := none,
    reference_no := none, tax_amount := PyFloat.ofInt 0, tax_deductible := false,
    is_reimbursable := false, is_deleted := false }

/-- Cached extraction for the C7 non-blocking check: both bounds
present, no transactions of its own (reconciliation must read the
persisted rows instead). -/
def c7result (cb : PyFloat) : ExtractionResult :=
  { total_pages := 1, total_transactions := 0, statement_period := none,
    account_info := none, user_info := none,
    opening_balance := some (PyFloat.ofInt 1000), closing_balance := some cb,
    transactions := [], errors := [], credit_card_terms := none }

def c7state (cb : PyFloat) : ProcState :=
  { statement := mkStatement (some (c7result cb)) "imported", incomes := [c7income],
    expenses := [c7expense], transfers := [], accounts := [], snapshots := [], cards := [],
    next_account_id := 1 }

/-- C7: with both bounds present, reconciliation sums the persisted,
non-deleted Income/Expense rows attributed to the statement, sets
`calculated_closing = opening + Σincome − Σexpense` and
`matches ⟺ |closing − calculated_closing| ≤ 0.01` (display fields are
the 2-decimal roundings); no report is produced when either bound is
missing; `opening=1000, income=500, expense=300` gives `matches=True`,
`difference=0.0` at `closing=1200` and `matches=False`,
`difference=-50.0` at `closing=1150`; and a mismatch neither raises nor
blocks the `imported` status. -/
theorem C7_balance_reconciliation :
    (∀ (op cl : PyFloat) (incomes : List IncomeRow) (expenses : List ExpenseRow) (sid : Nat),
      reconcileBalances (some op) (some cl) incomes expenses sid =
        some { extracted_opening_balance := op,
               extracted_closing_balance := cl,
               calculated_closing_balance :=
                 ((op.add (totalIncomeFor incomes sid)).sub (totalExpensesFor expenses sid)).round2,
               total_income := (totalIncomeFor incomes sid).round2,
               total_expenses := (totalExpensesFor expenses sid).round2,
               difference :=
                 (cl.sub ((op.add (totalIncomeFor incomes sid)).sub
                   (totalExpensesFor expenses sid))).round2,
               matchesFlag :=
                 PyFloat.ble ((cl.sub ((op.add (totalIncomeFor incomes sid)).sub
                   (totalExpensesFor expenses sid))).pyAbs) (PyFloat.dec 1 2) }) ∧
    (∀ (op cl : Option PyFloat) (incomes : List IncomeRow) (expenses : List ExpenseRow)
        (sid : Nat),
      (reconcileBalances op cl incomes expenses sid).isSome = (op.isSome && cl.isSome)) ∧
    ((reconcileBalances (some (PyFloat.ofInt 1000)) (some (PyFloat.ofInt 1200))
        [c7income] [c7expense] 1).map
        (fun r => (r.matchesFlag, decide (PyFloat.Eqv r.difference (PyFloat.ofInt 0)))) =
      some (true, true)) ∧
    ((reconcileBalances (some (PyFloat.ofInt 1000)) (some (PyFloat.ofInt 1150))
        [c7income] [c7expense] 1).map
        (fun r => (r.matchesFlag, decide (PyFloat.Eqv r.difference (PyFloat.ofInt (-50))))) =
      some (false, true)) ∧
    (∀ cb : PyFloat,
      (process_statement 1 false [] (c7state cb)).2.toOption.map
        (fun r => (r.processing_status, r.reconciliation.isSome)) = some ("imported", true)) := by
  refine ⟨fun op cl incomes expenses sid => rfl, ?_, by decide, by decide, fun cb => rfl⟩
  intro op cl incomes expenses sid
  cases op <;> cases cl <;> rfl

/-! ## Claim C8: type/sign routing of the import loop -/

/-- The inconsistent transaction of the C8 failing input: `type=debit`
but a positive amount. -/
def c8txn : Txn :=
  { date := some "2025-01-05", description := some "MYSTERY", amount := some (PyFloat.ofInt 5),
    txnType := some "debit", category := some "Other", transfer_type := none, reference := none,
    payer := none, seller := none, location := none }

def c8result : ExtractionResult :=
  { total_pages := 1, total_transactions := 1, statement_period := none, account_info := none,
    user_info := none, opening_balance := none, closing_balance := none,
    transactions := [c8txn], errors := [], credit_card_terms := none }

def c8state : ProcState :=
  { statement := mkStatement (some c8result) "extracted", incomes := [], expenses := [],
    transfers := [], accounts := [], snapshots := [], cards := [], next_account_id := 1 }

/-- C8 counterexample: a type/sign mismatch (`debit` with positive
amount) creates no row, but it is also NOT counted in the summary's
`skipped` count — the batch completes with every counter at zero. -/
theorem C8_mismatch_not_counted_as_skipped :
    (process_statement 1 false [] c8state).2.toOption.map
        (fun r => (r.summary.incomes_created, r.summary.expenses_created,
                   r.summary.transfers_created, r.summary.skipped)) = some (0, 0, 0, 0) ∧
    (process_statement 1 false [] c8state).1.incomes = [] ∧
    (process_statement 1 false [] c8state).1.expenses = [] := by
  refine ⟨by decide, by decide, by decide⟩

/-- C8 as amended: for every imported transaction that is not a
neutralized transfer and has truthy date, amount and description with a
parsable date, the importer creates exactly one Income row when type is
`credit` with positive amount, and exactly one Expense row when type is
`debit` with negative amount (the other tables and the skipped counter
untouched); on a type/sign mismatch the transaction is silently dropped:
no row is created, the batch continues, and no counter — in particular
not `skipped` — changes. -/
theorem C8_type_sign_routing (uid stmt_id : Nat) (target : Option Nat)
    (ua : List AccountRec) (acc : ImportAcc) (txn : Txn) (d : Int)
    (h1 : truthyStr txn.date = true) (h2 : truthyNum txn.amount = true)
    (h3 : truthyStr txn.description = true)
    (h4 : parseDate (txn.date.getD "") = some d)
    (h5 : (txn.transfer_type == some "intra_person") = false)
    (h6 : should_neutralize_transfer txn ua = false) :
    (txn.txnType = some "credit" →
      PyFloat.blt (PyFloat.ofInt 0) (txn.amount.getD (PyFloat.ofInt 0)) = true →
      ∃ acc', importTxn uid stmt_id target ua acc txn = .ok acc' ∧
        acc'.incomes.length = acc.incomes.length + 1 ∧
        acc'.created_incomes = acc.created_incomes + 1 ∧
        acc'.expenses = acc.expenses ∧ acc'.transfers = acc.transfers ∧
        acc'.skipped = acc.skipped) ∧
    (txn.txnType = some "debit" →
      PyFloat.blt (txn.amount.getD (PyFloat.ofInt 0)) (PyFloat.ofInt 0) = true →
      ∃ acc', importTxn uid stmt_id target ua acc txn = .ok acc' ∧
        acc'.expenses.length = acc.expenses.length + 1 ∧
        acc'.created_expenses = acc.created_expenses + 1 ∧
        acc'.incomes = acc.incomes ∧ acc'.transfers = acc.transfers ∧
        acc'.skipped = acc.skipped) ∧
    (∀ ttype, txn.txnType = some ttype →
      (ttype == "credit" &&
        PyFloat.blt (PyFloat.ofInt 0) (txn.amount.getD (PyFloat.ofInt 0))) = false →
      (ttype == "debit" &&
        PyFloat.blt (txn.amount.getD (PyFloat.ofInt 0)) (PyFloat.ofInt 0)) = false →
      importTxn uid stmt_id target ua acc txn = .ok acc) := by
  refine ⟨?_, ?_, ?_⟩
  · intro h7 h8
    refine ⟨_, importTxn_credit uid stmt_id target ua acc txn d h1 h2 h3 h4 h5 h6 h7 h8,
      ?_, rfl, rfl, rfl, rfl⟩
    simp [remove_duplicate_income_length]
  · intro h7 h8
    refine ⟨_, importTxn_debit uid stmt_id target ua acc txn d h1 h2 h3 h4 h5 h6 h7 h8,
      ?_, rfl, rfl, rfl, rfl⟩
    simp [remove_duplicate_expense_length]
  · intro ttype h7 h8 h9
    exact importTxn_mismatch uid stmt_id target ua acc txn d ttype h1 h2 h3 h4 h5 h6 h7 h8 h9

/-- A well-formed credit transaction for the C8 witness. -/
def c8creditTxn : Txn :=
  { date := some "2025-01-05", description := some "PAYMENT RECEIVED",
    amount := some (PyFloat.ofInt 500), txnType := some "credit", category := some "Other",
    transfer_type := none, reference := none, payer := none, seller := none, location := none }

/-- The empty loop accumulator. -/
def emptyImportAcc : ImportAcc :=
  { incomes := [], expenses := [], transfers := [], created_incomes := 0,
    created_expenses := 0, created_transfers := 0, skipped := 0, duplicates_removed := 0,
    neutralized_transfers := 0 }

/-- Witness for C8: the credit branch fires on a concrete well-formed
credit transaction, and the mismatch branch leaves the accumulator
untouched on the concrete failing input. -/
theorem C8_type_sign_routing_witness :
    (∃ acc', importTxn 1 1 none [] emptyImportAcc c8creditTxn = .ok acc' ∧
      acc'.incomes.length = emptyImportAcc.incomes.length + 1 ∧
      acc'.created_incomes = emptyImportAcc.created_incomes + 1 ∧
      acc'.expenses = emptyImportAcc.expenses ∧ acc'.transfers = emptyImportAcc.transfers ∧
      acc'.skipped = emptyImportAcc.skipped) ∧
    importTxn 1 1 none [] emptyImportAcc c8txn = .ok emptyImportAcc := by
  constructor
  · exact (C8_type_sign_routing 1 1 none [] emptyImportAcc c8creditTxn (daysFromCivil 2025 1 5)
      (by decide) (by decide) (by decide) (by decide) (by decide) (by decide)).1
      rfl (by decide)
  · exact (C8_type_sign_routing 1 1 none [] emptyImportAcc c8txn (daysFromCivil 2025 1 5)
      (by decide) (by decide) (by decide) (by decide) (by decide) (by decide)).2.2
      "debit" rfl (by decide) (by decide)

/-! ## Claim C9: the duplicate resolver -/

/-- Substring overlap of two normalized descriptions, both required
non-empty — the claim's description criterion. -/
def descOverlap (a b : String) : Prop :=
  a ≠ "" ∧ b ≠ "" ∧ (strIn a b = true ∨ strIn b a = true)

/-- The claim's matcher for an existing Expense row against a candidate:
same owner, identical amount, date within ±1 day, still active, and
description overlap (first 50 characters, case-folded) or a matching
target account. -/
def C9Matcher (uid : Nat) (amount : PyFloat) (date : Int) (candDesc : String)
    (account_id : Option Nat) (r : ExpenseRow) : Prop :=
  r.user_id = uid ∧ PyFloat.Eqv r.amount amount ∧
  date - 1 ≤ r.date_spent ∧ r.date_spent ≤ date + 1 ∧ r.is_deleted = false ∧
  (descOverlap (normDesc candDesc) (normDesc (r.description.getD "")) ∨
   (account_id.isSome = true ∧ r.account_id = account_id))

instance (uid : Nat) (amount : PyFloat) (date : Int) (candDesc : String)
    (account_id : Option Nat) (r : ExpenseRow) :
    Decidable (C9Matcher uid amount date candDesc account_id r) := by
  unfold C9Matcher descOverlap PyFloat.Eqv
  infer_instance

/-- The claim's matcher for an existing Income row against a candidate:
the same criteria over the income table (date is `date_received`). -/
def C9MatcherIncome (uid : Nat) (amount : PyFloat) (date : Int) (candDesc : String)
    (account_id : Option Nat) (r : IncomeRow) : Prop :=
  r.user_id = uid ∧ PyFloat.Eqv r.amount amount ∧
  date - 1 ≤ r.date_received ∧ r.date_received ≤ date + 1 ∧ r.is_deleted = false ∧
  (descOverlap (normDesc candDesc) (normDesc (r.description.getD "")) ∨
   (account_id.isSome = true ∧ r.account_id = account_id))

instance (uid : Nat) (amount : PyFloat) (date : Int) (candDesc : String)
    (account_id : Option Nat) (r : IncomeRow) :
    Decidable (C9MatcherIncome uid amount date candDesc account_id r) := by
  unfold C9MatcherIncome descOverlap PyFloat.Eqv
  infer_instance

lemma pyFloat_beq_iff (a b : PyFloat) : PyFloat.beq a b = true ↔ PyFloat.Eqv a b := by
  simp [PyFloat.beq, PyFloat.Eqv]

lemma normDesc_empty : normDesc "" = "" := rfl

lemma descNormalized_eq (d : String) : (if d == "" then "" else normDesc d) = normDesc d := by
  split
  · rename_i h
    rw [show d = "" from by simpa using h]
    rfl
  · rfl

lemma expenseDupScan_iff (uid : Nat) (amount : PyFloat) (date : Int) (candDesc : String)
    (aid : Option Nat) (r : ExpenseRow) :
    expenseDupScan uid amount (date - 1) (date + 1) (normDesc candDesc) aid r = true ↔
    C9Matcher uid amount date candDesc aid r := by
  unfold expenseDupScan C9Matcher descOverlap fuzzyDupMatch
  cases aid <;>
    simp [pyFloat_beq_iff, and_assoc, Bool.and_eq_true, Bool.or_eq_true,
      decide_eq_true_iff, Bool.not_eq_true']

/-- `remove_duplicate_expense` for a candidate without a reference
number is exactly the first-match scan. -/
lemma remove_duplicate_expense_noref (rows : List ExpenseRow) (uid : Nat)
    (amount : PyFloat) (date : Int) (desc : String) (aid : Option Nat) :
    remove_duplicate_expense rows uid amount date desc aid "" =
      updateFirst (expenseDupScan uid amount (date - 1) (date + 1) (normDesc desc) aid)
        (fun r => { r with is_deleted := true }) rows := by
  unfold remove_duplicate_expense
  rw [descNormalized_eq]
  simp

lemma incomeDupScan_iff (uid : Nat) (amount : PyFloat) (date : Int) (candDesc : String)
    (aid : Option Nat) (r : IncomeRow) :
    incomeDupScan uid amount (date - 1) (date + 1) (normDesc candDesc) aid r = true ↔
    C9MatcherIncome uid amount date candDesc aid r := by
  unfold incomeDupScan C9MatcherIncome descOverlap fuzzyDupMatch
  cases aid <;>
    simp [pyFloat_beq_iff, and_assoc, Bool.and_eq_true, Bool.or_eq_true,
      decide_eq_true_iff, Bool.not_eq_true']

/-- `remove_duplicate_income` for a candidate without a reference
number is exactly the first-match scan over the income table. -/
lemma remove_duplicate_income_noref (rows : List IncomeRow) (uid : Nat)
    (amount : PyFloat) (date : Int) (desc : String) (aid : Option Nat) :
    remove_duplicate_income rows uid amount date desc aid "" =
      updateFirst (incomeDupScan uid amount (date - 1) (date + 1) (normDesc desc) aid)
        (fun r => { r with is_deleted := true }) rows := by
  unfold remove_duplicate_income
  rw [descNormalized_eq]
  simp

/-- The candidate transaction of the C9 example, as imported. -/
def c9candidateTxn : Txn :=
  { date := some "2025-01-11", description := some "Grab Food Delivery",
    amount := some (PyFloat.ofInt (-50)), txnType := some "debit",
    category := some "Dining", transfer_type := none, reference := none,
    payer := none, seller := none, location := none }

/-- Loop accumulator holding only the existing Grab Food expense. -/
def c9acc : ImportAcc :=
  { incomes := [], expenses := [grabFoodExpense], transfers := [], created_incomes := 0,
    created_expenses := 0, created_transfers := 0, skipped := 0, duplicates_removed := 0,
    neutralized_transfers := 0 }

/-- An active Income row of user 1: the existing row of the income-side
duplicate example. -/
def salaryIncome : IncomeRow :=
  { user_id := 1, account_id := none, statement_id := some 1,
    amount := PyFloat.ofInt 3000, description := some "Salary January", category := "Salary",
    date_received := daysFromCivil 2025 1 10, payer := "", reference_no := none,
    is_deleted := false }

/-- An incoming credit candidate one day later whose description
overlaps the existing income row's. -/
def c9incomeTxn : Txn :=
  { date := some "2025-01-11", description := some "Salary January Payment",
    amount := some (PyFloat.ofInt 3000), txnType := some "credit",
    category := some "Salary", transfer_type := none, reference := none,
    payer := none, seller := none, location := none }

/-- Loop accumulator holding only the existing salary income row. -/
def c9accIncome : ImportAcc :=
  { incomes := [salaryIncome], expenses := [], transfers := [], created_incomes := 0,
    created_expenses := 0, created_transfers := 0, skipped := 0, duplicates_removed := 0,
    neutralized_transfers := 0 }

/-- C9: for every Income or Expense candidate without a reference
number, the duplicate resolver soft-deletes exactly the first existing
active row of the same kind and owner whose amount is identical, whose
date lies within ±1 day, and whose normalized description (first 50
characters, case-folded) substring-overlaps the candidate's or whose
account equals the candidate's target account — or, when no row
matches, leaves the table untouched; the spec's Grab Food example
behaves as stated; and the caller still appends the new row (Income for
the credit branch, Expense for the debit branch) regardless of whether
a duplicate was removed. -/
theorem C9_duplicate_resolver :
    (∀ (rows : List IncomeRow) (uid : Nat) (amount : PyFloat) (date : Int)
        (desc : String) (aid : Option Nat),
      ((remove_duplicate_income rows uid amount date desc aid "").2 = false ∧
        (remove_duplicate_income rows uid amount date desc aid "").1 = rows ∧
        ∀ r ∈ rows, ¬ C9MatcherIncome uid amount date desc aid r) ∨
      (∃ l1 r l2, rows = l1 ++ r :: l2 ∧
        (∀ x ∈ l1, ¬ C9MatcherIncome uid amount date desc aid x) ∧
        C9MatcherIncome uid amount date desc aid r ∧
        (remove_duplicate_income rows uid amount date desc aid "").1 =
          l1 ++ { r with is_deleted := true } :: l2 ∧
        (remove_duplicate_income rows uid amount date desc aid "").2 = true)) ∧
    (∀ (rows : List ExpenseRow) (uid : Nat) (amount : PyFloat) (date : Int)
        (desc : String) (aid : Option Nat),
      ((remove_duplicate_expense rows uid amount date desc aid "").2 = false ∧
        (remove_duplicate_expense rows uid amount date desc aid "").1 = rows ∧
        ∀ r ∈ rows, ¬ C9Matcher uid amount date desc aid r) ∨
      (∃ l1 r l2, rows = l1 ++ r :: l2 ∧
        (∀ x ∈ l1, ¬ C9Matcher uid amount date desc aid x) ∧
        C9Matcher uid amount date desc aid r ∧
        (remove_duplicate_expense rows uid amount date desc aid "").1 =
          l1 ++ { r with is_deleted := true } :: l2 ∧
        (remove_duplicate_expense rows uid amount date desc aid "").2 = true)) ∧
    (remove_duplicate_expense [grabFoodExpense] 1 (PyFloat.ofInt 50)
        (daysFromCivil 2025 1 11) "Grab Food Delivery" none "" =
      ([{ grabFoodExpense with is_deleted := true }], true)) ∧
    (∀ (uid stmt_id : Nat) (target : Option Nat) (ua : List AccountRec) (acc : ImportAcc)
        (txn : Txn) (d : Int),
      truthyStr txn.date = true → truthyNum txn.amount = true →
      truthyStr txn.description = true → parseDate (txn.date.getD "") = some d →
      (txn.transfer_type == some "intra_person") = false →
      should_neutralize_transfer txn ua = false →
      txn.txnType = some "credit" →
      PyFloat.blt (PyFloat.ofInt 0) (txn.amount.getD (PyFloat.ofInt 0)) = true →
      ∃ acc', importTxn uid stmt_id target ua acc txn = .ok acc' ∧
        acc'.incomes = (remove_duplicate_income acc.incomes uid
            ((txn.amount.getD (PyFloat.ofInt 0)).pyAbs) d
            (pyTake (txn.description.getD "") 255) target (txn.reference.getD "")).1
          ++ [incomeRowOf uid stmt_id target txn d]) ∧
    (∀ (uid stmt_id : Nat) (target : Option Nat) (ua : List AccountRec) (acc : ImportAcc)
        (txn : Txn) (d : Int),
      truthyStr txn.date = true → truthyNum txn.amount = true →
      truthyStr txn.description = true → parseDate (txn.date.getD "") = some d →
      (txn.transfer_type == some "intra_person") = false →
      should_neutralize_transfer txn ua = false →
      txn.txnType = some "debit" →
      PyFloat.blt (txn.amount.getD (PyFloat.ofInt 0)) (PyFloat.ofInt 0) = true →
      ∃ acc', importTxn uid stmt_id target ua acc txn = .ok acc' ∧
        acc'.expenses = (remove_duplicate_expense acc.expenses uid
            ((txn.amount.getD (PyFloat.ofInt 0)).pyAbs) d
            (pyTake (txn.description.getD "") 255) target (txn.reference.getD "")).1
          ++ [expenseRowOf uid stmt_id target txn d]) := by
  refine ⟨?_, ?_, by decide, ?_, ?_⟩
  · intro rows uid amount date desc aid
    rw [remove_duplicate_income_noref]
    rcases updateFirst_spec (incomeDupScan uid amount (date - 1) (date + 1)
        (normDesc desc) aid) (fun r => { r with is_deleted := true }) rows with
      ⟨h1, h2, h3⟩ | ⟨l1, r, l2, he, hl1, hr, hres, hflag⟩
    · left
      refine ⟨h1, h2, fun r hr => ?_⟩
      rw [← incomeDupScan_iff]
      simp [h3 r hr]
    · right
      refine ⟨l1, r, l2, he, fun x hx => ?_, (incomeDupScan_iff ..).mp hr, hres, hflag⟩
      rw [← incomeDupScan_iff]
      simp [hl1 x hx]
  · intro rows uid amount date desc aid
    rw [remove_duplicate_expense_noref]
    rcases updateFirst_spec (expenseDupScan uid amount (date - 1) (date + 1)
        (normDesc desc) aid) (fun r => { r with is_deleted := true }) rows with
      ⟨h1, h2, h3⟩ | ⟨l1, r, l2, he, hl1, hr, hres, hflag⟩
    · left
      refine ⟨h1, h2, fun r hr => ?_⟩
      rw [← expenseDupScan_iff]
      simp [h3 r hr]
    · right
      refine ⟨l1, r, l2, he, fun x hx => ?_, (expenseDupScan_iff ..).mp hr, hres, hflag⟩
      rw [← expenseDupScan_iff]
      simp [hl1 x hx]
  · intro uid stmt_id target ua acc txn d h1 h2 h3 h4 h5 h6 h7 h8
    exact ⟨_, importTxn_credit uid stmt_id target ua acc txn d h1 h2 h3 h4 h5 h6 h7 h8, rfl⟩
  · intro uid stmt_id target ua acc txn d h1 h2 h3 h4 h5 h6 h7 h8
    exact ⟨_, importTxn_debit uid stmt_id target ua acc txn d h1 h2 h3 h4 h5 h6 h7 h8, rfl⟩

/-- Witness for C9: the decomposition at the concrete Grab Food expense
example and at the concrete salary income example (the existing row is
the first match in both tables), and the candidate-import step on each
example appends the new Income/Expense row after the removal. -/
theorem C9_duplicate_resolver_witness :
    ((remove_duplicate_income [salaryIncome] 1 (PyFloat.ofInt 3000)
        (daysFromCivil 2025 1 11) "Salary January Payment" none "").2 = true) ∧
    ((remove_duplicate_expense [grabFoodExpense] 1 (PyFloat.ofInt 50)
        (daysFromCivil 2025 1 11) "Grab Food Delivery" none "").2 = true) ∧
    (∃ acc', importTxn 1 1 none [] c9accIncome c9incomeTxn = .ok acc' ∧
      acc'.incomes = (remove_duplicate_income c9accIncome.incomes 1
          ((c9incomeTxn.amount.getD (PyFloat.ofInt 0)).pyAbs) (daysFromCivil 2025 1 11)
          (pyTake (c9incomeTxn.description.getD "") 255) none
          (c9incomeTxn.reference.getD "")).1
        ++ [incomeRowOf 1 1 none c9incomeTxn (daysFromCivil 2025 1 11)]) ∧
    (∃ acc', importTxn 1 1 none [] c9acc c9candidateTxn = .ok acc' ∧
      acc'.expenses = (remove_duplicate_expense c9acc.expenses 1
          ((c9candidateTxn.amount.getD (PyFloat.ofInt 0)).pyAbs) (daysFromCivil 2025 1 11)
          (pyTake (c9candidateTxn.description.getD "") 255) none
          (c9candidateTxn.reference.getD "")).1
        ++ [expenseRowOf 1 1 none c9candidateTxn (daysFromCivil 2025 1 11)]) := by
  refine ⟨?_, ?_, ?_, ?_⟩
  · rcases C9_duplicate_resolver.1 [salaryIncome] 1 (PyFloat.ofInt 3000)
        (daysFromCivil 2025 1 11) "Salary January Payment" none with
      ⟨_, _, hall⟩ | ⟨_, _, _, _, _, _, _, hflag⟩
    · exact absurd (hall salaryIncome (by simp)) (by decide)
    · exact hflag
  · rcases C9_duplicate_resolver.2.1 [grabFoodExpense] 1 (PyFloat.ofInt 50)
        (daysFromCivil 2025 1 11) "Grab Food Delivery" none with
      ⟨_, _, hall⟩ | ⟨_, _, _, _, _, _, _, hflag⟩
    · exact absurd (hall grabFoodExpense (by simp)) (by decide)
    · exact hflag
  · exact C9_duplicate_resolver.2.2.2.1 1 1 none [] c9accIncome c9incomeTxn
      (daysFromCivil 2025 1 11) (by decide) (by decide) (by decide) (by decide) (by decide)
      (by decide) rfl (by decide)
  · exact C9_duplicate_resolver.2.2.2.2 1 1 none [] c9acc c9candidateTxn
      (daysFromCivil 2025 1 11) (by decide) (by decide) (by decide) (by decide) (by decide)
      (by decide) rfl (by decide)

/-! ## Claim C2: the scope of the force-reimport soft delete -/

/-- The intra-person transfer transaction of the C2 scenario. -/
def c2txn : Txn :=
  { date := some "2025-01-20", description := some "TRANSFER TO OWN ACCOUNT",
    amount := some (PyFloat.ofInt (-200)), txnType := some "debit",
    category := some "Transfer", transfer_type := some "intra_person", reference := none,
    payer := none, seller := none, location := none }

/-- The cached extraction whose only transaction is the intra-person
transfer. -/
def c2result : ExtractionResult :=
  { total_pages := 1, total_transactions := 1, statement_period := none, account_info := none,
    user_info := none, opening_balance := none, closing_balance := none,
    transactions := [c2txn], errors := [], credit_card_terms := none }

/-- The Transfer row each (re-)import of the cached extraction creates. -/
def c2transferRow : TransferRow := transferRowOf 1 1 none c2txn (daysFromCivil 2025 1 20)

/-- C2 fixture state: the cached statement plus arbitrary row tables. -/
def c2state (incomes : List IncomeRow) (expenses : List ExpenseRow)
    (transfers : List TransferRow) : ProcState :=
  { statement := mkStatement (some c2result) "imported", incomes := incomes,
    expenses := expenses, transfers := transfers, accounts := [], snapshots := [],
    cards := [], next_account_id := 1 }

/-- C2 counterexample: force-reimport of a statement whose earlier run
imported a Transfer row does not soft-delete that row — after the
re-import, the old Transfer row and its freshly created duplicate are
both active. -/
theorem C2_transfer_rows_survive_force_reimport :
    (process_statement 1 true [] (c2state [] [] [c2transferRow])).1.transfers =
      [c2transferRow, c2transferRow] ∧
    c2transferRow.is_deleted = false ∧
    c2transferRow.statement_id = some 1 := by
  refine ⟨by decide, by decide, by decide⟩

/-- Reduction of `process_statement` on the cache-hit path: the three
request guards pass and the statement carries a cached extraction, so
the endpoint is exactly `processImport` on that cache (modulo the
exception handler's wrapping). -/
lemma process_statement_cached (uid : Nat) (force_reimport : Bool) (pages : List PageData)
    (s : ProcState) (result : ExtractionResult)
    (h1 : (!(s.statement.user_id == uid) || s.statement.is_deleted) = false)
    (h2 : (!(["bank", "credit_card", "ewallet"].contains
      (pyLower s.statement.statement_type))) = false)
    (h3 : (s.statement.processing_status == "extracting") = false)
    (h4 : s.statement.extracted_data = some result) :
    process_statement uid force_reimport pages s =
      match processImport uid force_reimport s result with
      | (s, .ok resp) => (s, .ok resp)
      | (s, .http e) => (s, .error e)
      | (s, .exc e) => (markStatementFailed s, .error (.internalError e)) := by
  unfold process_statement
  dsimp only
  rw [h1, h2, h3]
  simp only [Bool.false_eq_true, if_false]
  unfold acquireExtraction
  rw [h4]

/-- The C2 statement after the re-import: cache retained, status back to
`imported`. -/
def importedStmt : StatementRec :=
  { statement_id := 1, user_id := 1, statement_type := "bank", period_start := none,
    period_end := none, is_deleted := false, extracted_data := some c2result,
    processing_status := "imported", processing_error := none }

/-- The force-reimport soft-delete pass on one Income row (lines
1616-1622). -/
def markAttributedIncome (sid : Nat) (r : IncomeRow) : IncomeRow :=
  if r.statement_id == some sid && !r.is_deleted then { r with is_deleted := true } else r

/-- The force-reimport soft-delete pass on one Expense row (lines
1623-1628). -/
def markAttributedExpense (sid : Nat) (r : ExpenseRow) : ExpenseRow :=
  if r.statement_id == some sid && !r.is_deleted then { r with is_deleted := true } else r

/-- The import summary every C2 re-import run reports: the one cached
transaction is neutralized into a Transfer row. -/
def c2summary : ImportSummary :=
  { total_pages := 1, total_transactions_extracted := 1, incomes_created := 0,
    expenses_created := 0, transfers_created := 1, duplicates_removed := 0,
    neutralized_transfers := 1, skipped := 0 }

/-- The response of the C2 re-import run. -/
def c2resp : ProcResponse :=
  { processing_status := "imported", summary := c2summary,
    statement_period := none, opening_balance := none, closing_balance := none,
    reconciliation := none }

/-- Closed form of `processImport` on the C2 fixture, for arbitrary row
tables: when attributed Income/Expense rows exist they are soft-deleted
(`markAttributed*`), otherwise the tables pass through; either way the
Transfer table is only appended to. -/
lemma processImport_c2 (incomes : List IncomeRow) (expenses : List ExpenseRow)
    (transfers : List TransferRow) :
    processImport 1 true (c2state incomes expenses transfers) c2result =
      (if 0 < (incomes.filter
            (fun r => r.statement_id == some 1 && !r.is_deleted)).length +
          (expenses.filter (fun r => r.statement_id == some 1 && !r.is_deleted)).length then
        ({ statement := importedStmt, incomes := incomes.map (markAttributedIncome 1),
           expenses := expenses.map (markAttributedExpense 1),
           transfers := transfers ++ [c2transferRow], accounts := [], snapshots := [],
           cards := [], next_account_id := 1 }, ImportOutcome.ok c2resp)
      else
        ({ statement := importedStmt, incomes := incomes, expenses := expenses,
           transfers := transfers ++ [c2transferRow], accounts := [], snapshots := [],
           cards := [], next_account_id := 1 }, ImportOutcome.ok c2resp)) := by
  unfold processImport
  rw [show updatePeriods (c2state incomes expenses transfers).statement c2result
    = Except.ok (c2state incomes expenses transfers).statement from rfl]
  dsimp only [c2state, mkStatement]
  simp only [Bool.not_true, Bool.and_false, Bool.false_and, Bool.false_eq_true, if_false,
    Bool.true_and, Bool.or_true, Bool.and_true, decide_eq_true_eq]
  by_cases hc : 0 < (incomes.filter
      (fun r => r.statement_id == some 1 && !r.is_deleted)).length +
    (expenses.filter (fun r => r.statement_id == some 1 && !r.is_deleted)).length
  · rw [if_pos hc, if_pos hc]
    rfl
  · rw [if_neg hc, if_neg hc]
    rfl

/-- C2 (amended): a force-reimport on the cached statement succeeds and
soft-deletes every attributed Income and Expense row — after it, every
Income/Expense row attributed to the statement is deleted — but Transfer
rows are exempt: the prior Transfer table survives unchanged (only the
fresh Transfer row is appended), for every starting row table. -/
theorem C2_force_reimport_soft_delete_scope (incomes : List IncomeRow)
    (expenses : List ExpenseRow) (transfers : List TransferRow) :
    (process_statement 1 true [] (c2state incomes expenses transfers)).2 =
      .ok c2resp ∧
    (∀ r ∈ (process_statement 1 true [] (c2state incomes expenses transfers)).1.incomes,
      r.statement_id = some 1 → r.is_deleted = true) ∧
    (∀ r ∈ (process_statement 1 true [] (c2state incomes expenses transfers)).1.expenses,
      r.statement_id = some 1 → r.is_deleted = true) ∧
    (process_statement 1 true [] (c2state incomes expenses transfers)).1.transfers =
      transfers ++ [c2transferRow] := by
  rw [process_statement_cached 1 true [] (c2state incomes expenses transfers) c2result
    rfl rfl rfl rfl]
  rw [processImport_c2]
  by_cases hc : 0 < (incomes.filter
      (fun r => r.statement_id == some 1 && !r.is_deleted)).length +
    (expenses.filter (fun r => r.statement_id == some 1 && !r.is_deleted)).length
  · rw [if_pos hc]
    dsimp only
    refine ⟨rfl, ?_, ?_, rfl⟩
    · intro r hr
      rcases List.mem_map.mp hr with ⟨r0, hr0, rfl⟩
      unfold markAttributedIncome
      split
      · intro _; rfl
      · rename_i h
        intro hsid
        cases hd : r0.is_deleted
        · exact absurd (by rw [hsid, hd]; decide) h
        · rfl
    · intro r hr
      rcases List.mem_map.mp hr with ⟨r0, hr0, rfl⟩
      unfold markAttributedExpense
      split
      · intro _; rfl
      · rename_i h
        intro hsid
        cases hd : r0.is_deleted
        · exact absurd (by rw [hsid, hd]; decide) h
        · rfl
  · rw [if_neg hc]
    dsimp only
    refine ⟨rfl, ?_, ?_, rfl⟩
    · intro r hr hsid
      have h0 : (incomes.filter
          (fun r => r.statement_id == some 1 && !r.is_deleted)).length = 0 := by omega
      have hnil := List.filter_eq_nil_iff.mp (List.length_eq_zero.mp h0) r hr
      cases hd : r.is_deleted
      · exact absurd (by rw [hsid, hd]; decide) hnil
      · rfl
    · intro r hr hsid
      have h0 : (expenses.filter
          (fun r => r.statement_id == some 1 && !r.is_deleted)).length = 0 := by omega
      have hnil := List.filter_eq_nil_iff.mp (List.length_eq_zero.mp h0) r hr
      cases hd : r.is_deleted
      · exact absurd (by rw [hsid, hd]; decide) hnil
      · rfl

end RayyAI
